import Mathlib

/-!
# Verification of the OFD fiscal-protocol codec (`ofd/protocol.py`)

A shallow embedding of the tag-length-value codec, frame-header CRC logic,
tag registry and post-decode normalization of `ofd/protocol.py`, together
with theorems settling the frozen specification claims.

Conventions of the embedding:
* Python `bytes` values are `List Nat`, one entry per byte (each `< 256` on
  every path the source can produce).
* Python `str` values that flow through the codecs are represented by their
  cp866 code units, also as `List Nat` (cp866 maps every byte to a distinct
  character, so the code-unit list determines the text; `ofd` only ever
  re-encodes with the same code page).  Registry field names are plain Lean
  `String`s.
* Machine integers are `Nat` with explicit range checks where `struct`
  raises (`struct.error`); fallible operations return `Except PyErr`.
* Python `None` used as "no parent tag" is `Option Nat`; a `parents`
  attribute that is `None` or `[]` is modelled as `[]` (the source only
  tests its truthiness and membership, which agree on this encoding).
-/

set_option maxRecDepth 1000000
set_option maxHeartbeats 1000000

/-- Error kinds raised by the Python source: `struct.error`, `ValueError`,
`ProtocolError`, `KeyError` (missing dict key), `AttributeError` /
`TypeError` (operations on values of the wrong runtime type).  `fuel` is an
artifact of the bounded-recursion embedding of `STLV.unpack` and is never
produced when the recursion bound is at least the input length. -/
inductive PyErr where
  | structError
  | valueError
  | protocolError
  | keyError
  | attributeError
  | typeError
  | fuel
  deriving DecidableEq, Repr

/-- Decidable equality for `Except` results (not derived in core). -/
instance {e a : Type} [DecidableEq e] [DecidableEq a] :
    DecidableEq (Except e a) := fun x y =>
  match x, y with
  | .error u, .error v =>
    if h : u = v then isTrue (by rw [h]) else isFalse (by simp [h])
  | .ok u, .ok v =>
    if h : u = v then isTrue (by rw [h]) else isFalse (by simp [h])
  | .error _, .ok _ => isFalse (by simp)
  | .ok _, .error _ => isFalse (by simp)

/-- A Python byte string: one `Nat` per byte. -/
abbrev Bytes := List Nat

/-- A Python text string, represented by its cp866 code units. -/
abbrev PyStr := List Nat

/-- Little-endian serialization of `v` into `n` bytes
(`struct.pack` with format `<Q`/`<I`/`<H` after its own range check). -/
def leBytes : Nat → Nat → List Nat
  | 0, _ => []
  | n + 1, v => v % 256 :: leBytes n (v / 256)

/-- Little-endian value of a byte string (`struct.unpack` of `<Q`/`<I`/`<H`). -/
def leNat : List Nat → Nat
  | [] => 0
  | b :: rest => b + 256 * leNat rest

/-- Big-endian serialization (`struct.pack('>Q', v)`). -/
def beBytes (n v : Nat) : List Nat :=
  (leBytes n v).reverse

/-- `struct.pack('Ns', b)` semantics for a fixed-width `s` field: truncate to
`n` bytes and zero-pad on the right up to `n` bytes. -/
def fitBytes (n : Nat) (bs : List Nat) : List Nat :=
  bs.take n ++ List.replicate (n - bs.length) 0

theorem leBytes_length (n v : Nat) : (leBytes n v).length = n := by
  induction n generalizing v with
  | zero => rfl
  | succ k ih => simp [leBytes, ih]

theorem leNat_leBytes (n v : Nat) (h : v < 2 ^ (8 * n)) :
    leNat (leBytes n v) = v := by
  induction n generalizing v with
  | zero =>
    simp only [Nat.mul_zero, pow_zero, Nat.lt_one_iff] at h
    simp [leBytes, leNat, h]
  | succ k ih =>
    have hdiv : v / 256 < 2 ^ (8 * k) := by
      apply Nat.div_lt_of_lt_mul
      calc v < 2 ^ (8 * (k + 1)) := h
        _ = 256 * 2 ^ (8 * k) := by ring
    simp [leBytes, leNat, ih (v / 256) hdiv]
    omega

/-! ## CRC-16/CCITT-FALSE

`crcmod.predefined.mkPredefinedCrcFun('crc-ccitt-false')`: polynomial
0x1021 (MSB first, no reflection), initial value 0xFFFF, no final xor. -/

/-- Bitwise xor on the low `fuel` bits, written with arithmetic primitives
only so that proofs can evaluate it cheaply. -/
def natXorAux : Nat → Nat → Nat → Nat
  | 0, _, _ => 0
  | fuel + 1, a, b => (a % 2 + b % 2) % 2 + 2 * natXorAux fuel (a / 2) (b / 2)

/-- Xor of two 16-bit words. -/
def xor16 (a b : Nat) : Nat :=
  natXorAux 16 a b

/-- One bit step: shift left, xor with the polynomial when the top bit
was set, keep 16 bits. -/
def crc16Round (c : Nat) : Nat :=
  if 32768 ≤ c then xor16 ((c * 2) % 65536) 0x1021 else (c * 2) % 65536

/-- Feed one byte into the running CRC. -/
def crc16Byte (c b : Nat) : Nat :=
  (List.range 8).foldl (fun acc _ => crc16Round acc) (xor16 c ((b % 256) * 256))

/-- Feed a byte string into a running CRC state. -/
def crc16Update (c : Nat) (data : List Nat) : Nat :=
  data.foldl crc16Byte c

/-- CRC-16/CCITT-FALSE of a byte string. -/
def crc16ccittFalse (data : List Nat) : Nat :=
  crc16Update 0xFFFF data

theorem crc16Update_append (c : Nat) (xs ys : List Nat) :
    crc16Update c (xs ++ ys) = crc16Update (crc16Update c xs) ys := by
  simp [crc16Update, List.foldl_append]

/-! ## FrameHeader (container header)

`FrameHeader` in the source: `struct.Struct('<HHBBB2s8s3s12s')`, 32 bytes:
length(2) crc(2) msgtype(1, constant 0xa5) doctype(1) version(1, constant 1)
extra1(2) devnum(8) docnum(3) extra2(12). -/

structure FrameHeader where
  length : Nat
  crc : Nat
  doctype : Nat
  extra1 : Bytes
  devnum : Bytes
  docnum : Bytes
  extra2 : Bytes
  deriving DecidableEq, Repr

/-- `FrameHeader.pack`.  The source's `struct.pack` raises for `length`,
`crc` or `doctype` out of range; the claims are stated on in-range values,
where the `%` below is the identity. -/
def FrameHeader.pack (h : FrameHeader) : Bytes :=
  leBytes 2 h.length ++ leBytes 2 h.crc ++ [0xa5, h.doctype % 256, 1] ++
    fitBytes 2 h.extra1 ++ fitBytes 8 h.devnum ++ fitBytes 3 h.docnum ++
    fitBytes 12 h.extra2

/-- `FrameHeader.recalculate_crc(body)`: the CRC input is
`pack[:2] + pack[4:] + body` — the serialized header with only the two CRC
bytes removed (the length bytes `pack[:2]` are kept), then the body. -/
def FrameHeader.recalculateCrc (h : FrameHeader) (body : Bytes) : FrameHeader :=
  ⟨h.length, crc16ccittFalse (h.pack.take 2 ++ h.pack.drop 4 ++ body),
    h.doctype, h.extra1, h.devnum, h.docnum, h.extra2⟩

/-! ## VLN (compact unsigned integer) -/

/-- Shared truncation step of `VLN.pack` / `FVLN.pack` (the source repeats
the identical block in both): if the packed buffer is longer than `maxlen`,
keep the prefix only when every discarded byte is zero, else `ValueError`. -/
def vlnTrim (maxlen : Nat) (packed : List Nat) : Except PyErr (List Nat) :=
  if packed.length > maxlen then
    if packed.drop maxlen ≠ List.replicate (packed.drop maxlen).length 0 then
      .error .valueError
    else
      .ok (packed.take maxlen)
  else
    .ok packed

/-- `VLN.pack`: `struct.pack('<Q', data)` (raising for values outside
`[0, 2^64)`), then the zero-tail truncation to `maxlen`. -/
def VLN.pack (maxlen : Nat) (data : Nat) : Except PyErr (List Nat) :=
  if data < 2 ^ 64 then
    vlnTrim maxlen (leBytes 8 data)
  else
    .error .structError

/-- `VLN.unpack`: reject inputs longer than `maxlen`, right-pad with zero
bytes to 8 bytes (inputs longer than 8 would make `struct.unpack('<Q', ...)`
fail), interpret little-endian. -/
def VLN.unpack (maxlen : Nat) (data : List Nat) : Except PyErr Nat :=
  if data.length > maxlen then
    .error .valueError
  else if data.length > 8 then
    .error .structError
  else
    .ok (leNat (data ++ List.replicate (8 - data.length) 0))

/-! ## FVLN (compact fixed-point decimal)

`FVLN.pack` works on `str(data)`: it locates the decimal point, removes it,
parses the remaining digits with `int(...)`, and packs
`struct.pack('<bQ', point_position, prepared)` (9 bytes: the count of
fractional digits as a signed byte, then the magnitude little-endian),
followed by the same zero-tail truncation as `VLN.pack`.  The embedding
takes the decimal string (as code units) directly. -/

/-- `str.index(c)`: position of the first occurrence. -/
def pyIndex (c : Nat) : List Nat → Option Nat
  | [] => none
  | b :: rest =>
    if b = c then some 0 else (pyIndex c rest).map (· + 1)

/-- Value of a run of ASCII decimal digits (helper for `pyParseInt`). -/
def digitsVal (s : List Nat) : Nat :=
  s.foldl (fun acc d => acc * 10 + (d - 48)) 0

/-- `int(s)` on the strings reachable here: an optional `-` sign followed by
a non-empty run of ASCII digits; anything else raises `ValueError`.
(The builtin also tolerates surrounding whitespace, an optional `+` and
non-ASCII digits; no value reaching `FVLN.pack` has those forms.) -/
def pyParseInt (s : List Nat) : Option Int :=
  if s.headD 0 = 45 then
    if s.tail ≠ [] ∧ s.tail.all (fun d => 48 ≤ d ∧ d ≤ 57) then
      some (-(digitsVal s.tail : Int))
    else none
  else
    if s ≠ [] ∧ s.all (fun d => 48 ≤ d ∧ d ≤ 57) then
      some ((digitsVal s : Int))
    else none

/-- `FVLN.pack` on the decimal string of the input value. -/
def FVLN.pack (maxlen : Nat) (strData : PyStr) : Except PyErr (List Nat) :=
  match pyIndex 46 strData with
  | none => .error .valueError
  | some point =>
    match pyParseInt (strData.take point ++ strData.drop (point + 1)) with
    | none => .error .valueError
    | some prepared =>
      let pointPosition := strData.length - 1 - point
      if 0 ≤ prepared ∧ prepared < 2 ^ 64 ∧ pointPosition ≤ 127 then
        vlnTrim maxlen (pointPosition :: leBytes 8 prepared.toNat)
      else
        .error .structError

/-- The signed-byte reading of `data[0]` done by `struct.unpack('<b', ...)`. -/
def signedByte (b : Nat) : Int :=
  if 128 ≤ b then (b : Int) - 256 else (b : Int)

/-- `FVLN.unpack`, up to the final `float(...)` conversion: reject inputs
longer than `maxlen`, right-pad with zero bytes to 9 bytes, and read the
signed scale byte and the 8-byte little-endian magnitude.  The source then
builds `(Decimal(num) / 10**pos).quantize(10**-pos)` — the exact decimal
with value `num / 10^pos` carrying `pos` fractional digits — and converts
it to `float`; the result is represented here by the pair `(pos, num)`,
which determines both the decimal and its `float` image. -/
def FVLN.unpack (maxlen : Nat) (data : List Nat) : Except PyErr (Int × Nat) :=
  if data.length > maxlen then
    .error .valueError
  else if data.length > 9 then
    .error .structError
  else
    let padded := data ++ List.replicate (9 - data.length) 0
    .ok (signedByte (padded.headD 0), leNat (padded.tail))

/-! ## The remaining scalar codecs -/

/-- `Byte.pack`: `struct.pack('B', v)` (raises outside `[0, 255]`). -/
def Byte.pack (data : Nat) : Except PyErr (List Nat) :=
  if data < 256 then .ok [data] else .error .structError

/-- `Byte.unpack`: a zero-length value decodes to 0, otherwise
`struct.unpack('B', data)` requires exactly one byte. -/
def Byte.unpack (data : List Nat) : Except PyErr Nat :=
  if data.length = 0 then .ok 0
  else if data.length = 1 then .ok (leNat data)
  else .error .structError

/-- `U32.unpack`: zero-length decodes to 0, otherwise exactly 4 bytes
little-endian. -/
def U32.unpack (data : List Nat) : Except PyErr Nat :=
  if data.length = 0 then .ok 0
  else if data.length = 4 then .ok (leNat data)
  else .error .structError

/-- `U16.unpack`: zero-length decodes to 0, otherwise exactly 2 bytes
little-endian. -/
def U16.unpack (data : List Nat) : Except PyErr Nat :=
  if data.length = 0 then .ok 0
  else if data.length = 2 then .ok (leNat data)
  else .error .structError

/-- `UnixTime.unpack`: exactly 4 bytes little-endian (no zero-length case). -/
def UnixTime.unpack (data : List Nat) : Except PyErr Nat :=
  if data.length = 4 then .ok (leNat data) else .error .structError

/-- Bytes whose cp866 characters `str.strip()` removes: the cp866 image of
a byte `b < 128` is the character `b`, and Python strips `\t \n \v \f \r`,
the separator controls `\x1c`-`\x1f` and the space; of the high bytes only
`0xFF` (cp866 no-break space, U+00A0) is whitespace. -/
def isStripByte (b : Nat) : Bool :=
  b ∈ [9, 10, 11, 12, 13, 28, 29, 30, 31, 32, 255]

/-- `str.strip()` on the code-unit representation. -/
def pyStrip (s : PyStr) : PyStr :=
  (s.dropWhile isStripByte).reverse.dropWhile isStripByte |>.reverse

/-- `String.pack`: `value.encode('cp866')` — the identity on code units
(defined on cp866-encodable text, which is all text this codec produces). -/
def StringTag.pack (value : PyStr) : List Nat :=
  value

/-- `String.unpack` with the descriptor's `maxlen` and `strip` flag:
zero-length decodes to the empty string, over-long input raises, otherwise
decode cp866 and optionally strip. -/
def StringTag.unpack (maxlen : Nat) (strip : Bool) (data : List Nat) :
    Except PyErr PyStr :=
  if data.length = 0 then .ok []
  else if data.length > maxlen then .error .valueError
  else .ok (if strip then pyStrip data else data)

/-- Lowercase hex digit, as a code unit. -/
def hexDigit (n : Nat) : Nat :=
  if n < 10 then 48 + n else 87 + n

/-- One byte of CPython's `repr` of a `bytes` object. -/
def reprByte (b : Nat) : List Nat :=
  if b = 92 then [92, 92]
  else if b = 39 then [92, 39]
  else if b = 9 then [92, 116]
  else if b = 10 then [92, 110]
  else if b = 13 then [92, 114]
  else if 32 ≤ b ∧ b ≤ 126 then [b]
  else [92, 120, hexDigit (b / 16), hexDigit (b % 16)]

/-- `str(b)` for a `bytes` value `b`: CPython renders `b'...'` with the
escapes of `reprByte`.  (When the bytes contain a single quote and no double
quote CPython switches to double quotes; no input in this development
contains a quote byte.) -/
def pyBytesRepr (bs : List Nat) : PyStr :=
  [98, 39] ++ (bs.map reprByte).flatten ++ [39]

/-- `ByteArray.pack`: `struct.pack('Ns', value)` with `N = len(value)` —
the identity. -/
def ByteArray.pack (value : List Nat) : List Nat :=
  value

/-- `ByteArray.unpack`: zero-length decodes to the empty *string*; over-long
input raises; otherwise the result is `str(...)` of the unpacked bytes —
the textual repr, not the bytes themselves. -/
def ByteArray.unpack (maxlen : Nat) (data : List Nat) : Except PyErr PyStr :=
  if data.length = 0 then .ok []
  else if data.length > maxlen then .error .valueError
  else .ok (pyBytesRepr data)

/-! ## Tag descriptors and the registry

One `Tag` structure stands for an instance of any of the Python descriptor
classes; `codec` records which class.  The constructor functions `mk...`
below mirror each class's `__init__` exactly — including the slip in
`U32.__init__` / `U16.__init__`, where the trailing commas in
`self.maxlen = 4,` and `self.cardinality = cardinality,` store 1-*tuples*
instead of the given values (`PyCard.tup`).  `ByteArray`, `UnixTime`, `VLN`
and `FVLN` never set a `cardinality` attribute at all (`PyCard.absent`,
which makes `hasattr(doc, 'cardinality')` false).  The unused tuple-valued
`maxlen` of `U32`/`U16` is stored as the plain width (no code reads it). -/

/-- The runtime state of a descriptor's `cardinality` attribute. -/
inductive PyCard where
  | absent
  | none
  | str (s : String)
  | tup (c : PyCard)
  deriving DecidableEq, Repr

/-- Which descriptor class a `Tag` is an instance of. -/
inductive Codec where
  | byte | u32 | u16 | string | byteArray | unixTime | vln | fvln | stlv
  deriving DecidableEq, Repr

structure Tag where
  name : String
  desc : String
  codec : Codec
  maxlen : Nat
  cardinality : PyCard
  parents : List Nat
  strip : Bool
  ty : Option Nat
  deriving DecidableEq, Repr

/-- `Byte.__init__` (defaults `cardinality=None`, `parents=None` passed
explicitly). -/
def mkByte (name desc : String) (card : PyCard) (parents : List Nat) : Tag :=
  ⟨name, desc, .byte, 1, card, parents, false, Option.none⟩

/-- `U32.__init__`: note `self.cardinality = cardinality,` — a 1-tuple. -/
def mkU32 (name desc : String) (card : PyCard) (parents : List Nat) : Tag :=
  ⟨name, desc, .u32, 4, .tup card, parents, false, Option.none⟩

/-- `U16.__init__`: same trailing-comma tuple as `U32`. -/
def mkU16 (name desc : String) (card : PyCard) (parents : List Nat) : Tag :=
  ⟨name, desc, .u16, 2, .tup card, parents, false, Option.none⟩

/-- `String.__init__`. -/
def mkString (name desc : String) (maxlen : Nat) (card : PyCard)
    (parents : List Nat) (strip : Bool) : Tag :=
  ⟨name, desc, .string, maxlen, card, parents, strip, Option.none⟩

/-- `ByteArray.__init__`: no `cardinality` attribute. -/
def mkByteArray (name desc : String) (maxlen : Nat) (parents : List Nat) :
    Tag :=
  ⟨name, desc, .byteArray, maxlen, .absent, parents, false, Option.none⟩

/-- `UnixTime.__init__`: no `cardinality` attribute, width 4. -/
def mkUnixTime (name desc : String) (parents : List Nat) : Tag :=
  ⟨name, desc, .unixTime, 4, .absent, parents, false, Option.none⟩

/-- `VLN.__init__` (default `maxlen=8` passed explicitly): no `cardinality`
attribute. -/
def mkVLN (name desc : String) (maxlen : Nat) (parents : List Nat) : Tag :=
  ⟨name, desc, .vln, maxlen, .absent, parents, false, Option.none⟩

/-- `FVLN.__init__`: no `cardinality` attribute. -/
def mkFVLN (name desc : String) (maxlen : Nat) (parents : List Nat) : Tag :=
  ⟨name, desc, .fvln, maxlen, .absent, parents, false, Option.none⟩

/-- `STLV.__init__` (default `cardinality='1'` passed explicitly). -/
def mkSTLV (name desc : String) (maxlen : Nat) (card : PyCard)
    (parents : List Nat) : Tag :=
  ⟨name, desc, .stlv, maxlen, card, parents, false, Option.none⟩

/-- A value of the `DOCUMENTS` dict: a single descriptor or a candidate
list for an ambiguous tag id. -/
inductive DocEntry where
  | one (t : Tag)
  | many (ts : List Tag)
  deriving DecidableEq, Repr
/-- Part of the `DOCUMENTS` tag table (split only to keep elaboration fast). -/
def DOCUMENTS_A : List (Nat × DocEntry) := [
  (1, .one (mkSTLV "fiscalReport" "Отчёт о фискализации" 658 (.str "1") [])),
  (11, .one (mkSTLV "fiscalReportCorrection" "Отчёт об изменении параметров регистрации" 658 (.str "1") [])),
  (2, .one (mkSTLV "openShift" "Отчёт об открытии смены" 440 (.str "1") [])),
  (21, .one (mkSTLV "currentStateReport" "Отчёт о текущем состоянии расчетов" 32768 (.str "1") [])),
  (3, .one (mkSTLV "receipt" "Кассовый чек" 32768 (.str "1") [])),
  (31, .one (mkSTLV "receiptCorrection" "Кассовый чек коррекции" 32768 (.str "1") [])),
  (4, .one (mkSTLV "bso" "Бланк строгой отчетности" 32768 (.str "1") [])),
  (41, .one (mkSTLV "bsoCorrection" "Бланк строгой отчетности коррекции" 32768 (.str "1") [])),
  (5, .one (mkSTLV "closeShift" "Отчёт о закрытии смены" 441 (.str "1") [])),
  (6, .one (mkSTLV "closeArchive" "Отчёт о закрытии фискального накопителя" 432 (.str "1") [])),
  (7, .one (mkSTLV "operatorAck" "подтверждение оператора" 512 (.str "1") [])),
  (1000, .one (mkString "docName" "наименование документа" 256 .none [] false)),
  (1001, .one (mkByte "autoMode" "автоматический режим" .none [])),
  (1002, .one (mkByte "offlineMode" "автономный режим" .none [])),
  (1003, .one (mkString "<unknown-1003>" "адрес банковского агента" 256 .none [] false)),
  (1004, .one (mkString "<unknown-1004>" "адрес банковского субагента" 256 .none [] false)),
  (1005, .many [mkString "operatorTransferAddress" "адрес оператора по переводу" 256 .none [3, 4] false,
      mkString "paymentProviderAddress" "адрес оператора по переводу" 256 .none [1223] false]),
  (1006, .one (mkString "<unknown-1006>" "адрес платежного агента" 256 .none [] false)),
  (1007, .one (mkString "<unknown-1007>" "адрес платежного субагента" 256 .none [] false)),
  (1008, .one (mkString "buyerPhoneOrAddress" "адрес покупателя" 64 .none [] false)),
  (1009, .one (mkString "retailAddress" "адрес (место) расчетов" 256 .none [] false)),
  (1010, .one (mkVLN "paymentAgentRemuneration" "Размер вознаграждения банковского агента (субагента)" 8 [])),
  (1011, .one (mkVLN "paymentAgentRemuneration-del" "Размер вознаграждения платежного агента (субагента)" 8 [])),
  (1012, .one (mkUnixTime "dateTime" "дата, время" [])),
  (1013, .one (mkString "kktNumber" "Заводской номер ККТ" 20 .none [] false)),
  (1014, .one (mkString "<unknown-1014>" "значение типа строка" 64 .none [] false)),
  (1015, .one (mkU32 "<unknown-1015>" "значение типа целое" .none [])),
  (1016, .many [mkString "operatorTransferInn" "ИНН оператора по переводу денежных средств" 12 .none [3, 4] true,
      mkString "paymentProviderInn" "ИНН оператора перевода" 12 .none [1223] true]),
  (1017, .one (mkString "ofdInn" "ИНН ОФД" 12 .none [] true)),
  (1018, .one (mkString "userInn" "ИНН пользователя" 12 .none [] true)),
  (1019, .one (mkString "<unknown-1019>" "Информационное cообщение" 64 .none [] false)),
  (1020, .one (mkVLN "totalSum" "ИТОГ" 8 [3, 31, 4, 41])),
  (1021, .one (mkString "operator" "Кассир" 64 .none [] false)),
  (1022, .one (mkByte "ofdResponseCode" "код ответа ОФД" .none [])),
  (1023, .one (mkFVLN "quantity" "Количество" 8 [])),
  (1024, .one (mkString "<unknown-1024>" "Наименование банковского агента" 64 .none [] false)),
  (1025, .one (mkString "<unknown-1025>" "Наименование банковского субагента" 64 .none [] false)),
  (1026, .many [mkString "operatorTransferName" "Наименование оператора по переводу денежных средств" 64 .none [3, 4] false,
      mkString "paymentProviderName" "Наименование оператора по переводу денежных средств" 64 .none [1223] false]),
  (1027, .one (mkString "<unknown-1027>" "Наименование платежного агента" 64 .none [] false)),
  (1028, .one (mkString "<unknown-1028>" "Наименование платежного субагента" 64 .none [] false)),
  (1029, .one (mkString "<unknown-1029>" "наименование реквизита" 64 .none [] false)),
  (1030, .one (mkString "name" "Наименование товара" 128 .none [] false))
]

/-- Part of the `DOCUMENTS` tag table (split only to keep elaboration fast). -/
def DOCUMENTS_B : List (Nat × DocEntry) := [
  (1031, .one (mkVLN "cashTotalSum" "Наличными" 8 [])),
  (1032, .one (mkSTLV "<unknown-1032>" "Налог" 33 (.str "1") [])),
  (1033, .one (mkSTLV "<unknown-1033>" "Налоги" 33 (.str "1") [])),
  (1034, .one (mkFVLN "markup" "Наценка (ставка)" 8 [])),
  (1035, .one (mkVLN "markupSum" "Наценка (сумма)" 8 [])),
  (1036, .one (mkString "machineNumber" "Номер автомата" 20 .none [] false)),
  (1037, .one (mkString "kktRegId" "Номер ККТ" 20 .none [] false)),
  (1038, .one (mkU32 "shiftNumber" "Номер смены" .none [])),
  (1039, .one (mkString "<unknown-1039>" "Зарезервирован" 12 .none [] false)),
  (1040, .one (mkU32 "fiscalDocumentNumber" "номер фискального документа" .none [])),
  (1041, .one (mkString "fiscalDriveNumber" "заводской номер фискального накопителя" 16 .none [] false)),
  (1042, .one (mkU32 "requestNumber" "номер чека за смену" .none [])),
  (1043, .one (mkVLN "sum" "Общая стоимость позиции с учетом скидок и наценок" 8 [])),
  (1044, .many [mkString "paymentAgentOperation" "Операция банковского агента" 24 .none [3, 4] false,
      mkString "agentOperation" "Операция банковского агента" 24 .none [1223] false]),
  (1045, .one (mkString "bankSubagentOperation" "операция банковского субагента" 24 .none [] false)),
  (1046, .one (mkString "ofdName" "ОФД" 256 .none [] false)),
  (1047, .one (mkSTLV "<unknown-1047>" "параметр настройки" 144 (.str "1") [])),
  (1048, .one (mkString "user" "наименование пользователя" 256 .none [] false)),
  (1049, .one (mkString "<unknown-1049>" "Почтовый индекс" 6 .none [] false)),
  (1050, .one (mkByte "fiscalDriveExhaustionSign" "Признак исчерпания ресурса ФН" .none [])),
  (1051, .one (mkByte "fiscalDriveReplaceRequiredSign" "Признак необходимости срочной замены ФН" .none [])),
  (1052, .one (mkByte "fiscalDriveMemoryExceededSign" "Признак переполнения памяти ФН" .none [])),
  (1053, .one (mkByte "ofdResponseTimeoutSign" "Признак превышения времени ожидания ответа ОФД" .none [])),
  (1054, .one (mkByte "operationType" "Признак расчета" .none [])),
  (1055, .one (mkByte "taxationType" "применяемая система налогообложения" .none [3, 31, 4, 41])),
  (1056, .one (mkByte "encryptionSign" "Признак шифрования" .none [])),
  (1057, .one (mkByte "paymentAgentType" "Применение платежными агентами (субагентами)" .none [])),
  (1058, .one (mkByte "<unknown-1058>" "Применение банковскими агентами (субагентами)" .none [])),
  (1059, .one (mkSTLV "items" "наименование товара (реквизиты)" 328 (.str "*") [])),
  (1060, .one (mkString "fnsSite" "Сайт налогового органа" 64 .none [] false)),
  (1061, .one (mkString "ofdSite" "Сайт ОФД" 64 .none [] false)),
  (1062, .one (mkByte "taxationType" "системы налогообложения" .none [1, 11])),
  (1063, .one (mkFVLN "discount" "Скидка (ставка)" 8 [])),
  (1064, .one (mkVLN "discountSum" "Скидка (сумма)" 8 [])),
  (1065, .one (mkString "<unknown-1065>" "Сокращенное наименование налога" 10 .none [] false)),
  (1066, .one (mkString "<unknown-1066>" "Сообщение" 256 .none [] false)),
  (1067, .one (mkSTLV "<unknown-1067>" "Сообщение оператора для ККТ" 216 (.str "1") [])),
  (1068, .one (mkSTLV "messageToFn" "сообщение оператора для ФН" 169 (.str "1") [])),
  (1069, .one (mkSTLV "<unknown-1069>" "Сообщение оператору" 328 (.str "*") [])),
  (1070, .one (mkFVLN "<unknown-1070>" "Ставка налога" 5 [])),
  (1071, .one (mkSTLV "stornoItems" "сторно товара (реквизиты)" 328 (.str "*") [])),
  (1072, .one (mkVLN "<unknown-1072>" "Сумма налога" 8 []))
]

/-- Part of the `DOCUMENTS` tag table (split only to keep elaboration fast). -/
def DOCUMENTS_C : List (Nat × DocEntry) := [
  (1073, .one (mkString "paymentAgentPhone" "Телефон банковского агента" 19 (.str "*") [] false)),
  (1074, .many [mkString "operatorToReceivePhone" "Телефон платежного агента" 19 (.str "*") [3, 4] false,
      mkString "paymentProviderPhone" "Телефон платежного агента" 19 (.str "*") [1223] false]),
  (1075, .many [mkString "operatorPhoneToTransfer" "Телефон оператора по переводу денежных средств" 19 (.str "*") [3, 4] false,
      mkString "agentPhone" "Телефон оператора перевода" 19 (.str "*") [1223] false]),
  (1076, .one (mkString "type" "Тип сообщения" 64 .none [] false)),
  (1077, .one (mkVLN "fiscalSign" "фискальный признак документа" 6 [])),
  (1078, .one (mkByteArray "<unknown-1078>" "фискальный признак оператора" 18 [])),
  (1079, .one (mkVLN "price" "Цена за единицу" 8 [])),
  (1080, .one (mkString "barcode" "Штриховой код EAN13" 16 .none [] false)),
  (1081, .one (mkVLN "ecashTotalSum" "форма расчета – электронными" 8 [])),
  (1082, .one (mkString "bankSubagentPhone" "телефон банковского субагента" 19 .none [] false)),
  (1083, .one (mkString "paymentSubagentPhone" "телефон платежного субагента" 19 .none [] false)),
  (1084, .one (mkSTLV "propertiesUser" "дополнительный реквизит" 328 (.str "1") [])),
  (1085, .one (mkString "propertyName" "наименование дополнительного реквизита" 64 .none [] false)),
  (1086, .one (mkString "propertyValue" "значение дополнительного реквизита" 256 .none [] false)),
  (1097, .one (mkU32 "notTransmittedDocumentsQuantity" "количество непереданных документов ФД" .none [])),
  (1098, .one (mkUnixTime "notTransmittedDocumentsDateTime" "дата и время первого из непереданных ФД" [])),
  (1101, .one (mkByte "correctionReasonCode" "код причины перерегистрации" (.str "+") [])),
  (1102, .one (mkVLN "nds18" "НДС итога чека со ставкой 18%" 8 [])),
  (1103, .one (mkVLN "nds10" "НДС итога чека со ставкой 10%" 8 [])),
  (1104, .one (mkVLN "nds0" "НДС итога чека со ставкой 0%" 8 [])),
  (1105, .one (mkVLN "ndsNo" "НДС не облагается" 8 [])),
  (1106, .one (mkVLN "ndsCalculated18" "НДС итога чека с рассчитанной ставкой 18%" 8 [])),
  (1107, .one (mkVLN "ndsCalculated10" "НДС итога чека с рассчитанной ставкой 10%" 8 [])),
  (1108, .one (mkByte "internetSign" "признак расчетов в сети Интернет" .none [])),
  (1109, .one (mkByte "serviceSign" "признак работы в сфере услуг" .none [])),
  (1110, .one (mkByte "bsoSign" "применяется для формирования БСО" .none [])),
  (1111, .one (mkU32 "documentsQuantity" "количество фискальных документов за смену" .none [])),
  (1112, .one (mkSTLV "modifiers" "скидка/наценка" 160 (.str "*") [])),
  (1113, .one (mkString "discountName" "наименование скидки" 64 .none [] false)),
  (1114, .one (mkString "markupName" "наименование наценки" 64 .none [] false)),
  (1115, .one (mkString "addressToCheckFiscalSign" "адрес сайта для проверки ФП" 256 .none [] false)),
  (1116, .one (mkU32 "notTransmittedDocumentNumber" "номер первого непереданного документа" .none [])),
  (1117, .one (mkString "sellerAddress" "адрес электронной почты отправителя чека" 64 .none [] false)),
  (1118, .one (mkU32 "receiptsQuantity" "количество кассовых чеков за смену" .none [])),
  (1119, .one (mkString "operatorPhoneToReceive" "телефон оператора по приему платежей" 19 .none [] false)),
  (1126, .one (mkByte "lotterySign" "признак проведения лотереи" .none [])),
  (1129, .one (mkSTLV "sellOper" "счетчики операций \"приход\"" 116 (.str "1") [])),
  (1130, .one (mkSTLV "sellReturnOper" "счетчики операций \"возврат прихода\"" 116 (.str "1") [])),
  (1131, .one (mkSTLV "buyOper" "счетчики операций \"расход\"" 116 (.str "1") [])),
  (1132, .one (mkSTLV "buyReturnOper" "счетчики операций \"возврат расхода\"" 116 (.str "1") [])),
  (1133, .one (mkSTLV "receiptCorrection" "счетчики операций по чекам коррекции" 216 (.str "1") [])),
  (1134, .one (mkU32 "receiptCount" "количество чеков со всеми признаками расчетов" .none [1157, 1194, 1158]))
]

/-- Part of the `DOCUMENTS` tag table (split only to keep elaboration fast). -/
def DOCUMENTS_D : List (Nat × DocEntry) := [
  (1135, .one (mkU32 "receiptCount" "количество чеков по признаку расчетов" .none [1129, 1130, 1131, 1132])),
  (1136, .one (mkVLN "cashSum" "сумма расчетов наличными" 8 [])),
  (1138, .one (mkVLN "ecashSum" "сумма расчетов электронными" 8 [])),
  (1139, .one (mkVLN "tax18Sum" "сумма НДС по ставке 18%" 8 [])),
  (1140, .one (mkVLN "tax10Sum" "сумма НДС по ставке 10%" 8 [])),
  (1141, .one (mkVLN "tax18118Sum" "сумма НДС по расч. ставке 18/118" 8 [])),
  (1142, .one (mkVLN "tax10110Sum" "сумма НДС по расч. ставке 10/110" 8 [])),
  (1143, .one (mkVLN "tax0Sum" "сумма расчетов с НДС по ставке 0%" 8 [])),
  (1144, .one (mkU32 "receiptCorrectionCount" "количество чеков коррекции" .none [])),
  (1145, .one (mkSTLV "sellCorrection" "счетчики коррекций \"приход\"" 100 (.str "1") [])),
  (1146, .one (mkSTLV "buyCorrection" "счетчики коррекций \"расход\"" 100 (.str "1") [])),
  (1147, .one (mkU32 "1147" "количество операций коррекции" .none [])),
  (1148, .one (mkU32 "selfCorrectionCount" "количество самостоятельных корректировок" .none [])),
  (1149, .one (mkU32 "orderCorrectionCount" "количество корректировок по предписанию" .none [])),
  (1150, .one (mkVLN "correctionSum" "сумма коррекций" 8 [])),
  (1151, .one (mkVLN "tax18CorrectionSum" "сумма коррекций НДС по ставке 18%" 8 [])),
  (1152, .one (mkVLN "tax10CorrectionSum" "сумма коррекций НДС по ставке 10%" 8 [])),
  (1153, .one (mkVLN "tax18118CorrectionSum" "сумма коррекций НДС по расч. ставке 18/118" 8 [])),
  (1154, .one (mkVLN "tax10110CorrectionSum" "сумма коррекций НДС расч. ставке 10/110" 8 [])),
  (1155, .one (mkVLN "tax08CorrectionSum" "сумма коррекций с НДС по ставке 0%" 8 [])),
  (1157, .one (mkSTLV "fiscalDriveSumReports" "счетчики итогов ФН" 708 (.str "1") [])),
  (1158, .one (mkSTLV "notTransmittedDocumentsSumReports" "счетчики итогов непереданных ФД" 708 (.str "1") [])),
  (1162, .one (mkByteArray "productCode" "код товарной номенклатуры" 32 [])),
  (1171, .one (mkString "providerPhone" "телефон поставщика" 19 .none [] false)),
  (1173, .one (mkByte "correctionType" "тип коррекции" .none [])),
  (1174, .one (mkSTLV "correctionBase" "основание для коррекции" 292 (.str "1") [])),
  (1177, .one (mkString "correctionName" "наименование основания для коррекции" 256 .none [] false)),
  (1178, .one (mkUnixTime "correctionDocumentDate" "дата документа основания для коррекции" [])),
  (1179, .one (mkString "correctionDocumentNumber" "номер документа основания для коррекции" 32 .none [] false)),
  (1183, .one (mkVLN "taxFreeSum" "сумма расчетов без НДС" 8 [])),
  (1184, .one (mkVLN "taxFreeCorrectionSum" "сумма коррекций без НДС" 8 [])),
  (1187, .one (mkString "retailPlace" "место расчетов" 256 .none [] false)),
  (1188, .one (mkString "kktVersion" "версия ККТ" 8 .none [] false)),
  (1189, .one (mkByte "documentKktVersion" "версия ФФД ККТ" .none [])),
  (1190, .one (mkByte "documentFdVersion" "версия ФФД ФН" .none [])),
  (1191, .many [mkString "propertiesString" "дополнительный реквизит предмета расчета" 256 .none [3, 4] false,
      mkString "propertiesItem" "дополнительный реквизит предмета расчета" 256 .none [1059, 1071] false]),
  (1192, .one (mkString "propertiesData" "дополнительный реквизит чека (БСО)" 16 .none [] false)),
  (1193, .one (mkByte "gamblingSign" "признак проведения азартных игр" .none [])),
  (1194, .one (mkSTLV "shiftSumReports" "счетчики итогов смены" 704 (.str "1") [])),
  (1195, .one (mkString "sellerAddress-del" "адрес электронной почты отправителя чека" 64 .none [] false)),
  (1196, .one (mkString "1196" "QR-код" 10000 .none [] false)),
  (1197, .one (mkString "unit" "единица измерения предмета расчета" 16 .none [] false))
]

/-- Part of the `DOCUMENTS` tag table (split only to keep elaboration fast). -/
def DOCUMENTS_E : List (Nat × DocEntry) := [
  (1198, .one (mkVLN "unitNds" "размер НДС за единицу предмета расчета" 8 [])),
  (1199, .one (mkByte "nds" "ставка НДС" .none [])),
  (1200, .one (mkVLN "ndsSum" "сумма НДС за предмет расчета" 8 [])),
  (1201, .one (mkVLN "totalSum" "общая сумма расчетов" 8 [1129, 1130, 1131, 1132])),
  (1203, .one (mkString "operatorInn" "ИНН кассира" 12 .none [1, 11, 2, 3, 4, 31, 41, 5, 6] true)),
  (1205, .one (mkU32 "correctionKktReasonCode" "коды причин изменения сведений о ККТ" (.str "+") [])),
  (1206, .one (mkByte "operatorMessage" "сообщение оператора" .none [])),
  (1207, .one (mkByte "exciseDutyProductSign" "продажа подакцизного товара" .none [])),
  (1208, .one (mkString "1208" "сайт чеков" 256 .none [] false)),
  (1209, .one (mkByte "fiscalDocumentFormatVer" "версия ФФД" .none [])),
  (1210, .one (mkByte "1210" "признаки режимов работы ККТ" .none [])),
  (1212, .one (mkByte "productType" "признак предмета расчета" .none [])),
  (1213, .one (mkU32 "fdKeyResource" "ресурс ключей ФП" .none [])),
  (1214, .one (mkByte "paymentType" "признак способа расчета" .none [])),
  (1215, .one (mkVLN "prepaidSum" "сумма предоплаты (зачет аванса)" 8 [3, 31, 41, 41])),
  (1216, .one (mkVLN "creditSum" "сумма постоплаты (кредита)" 8 [3, 31, 4, 41])),
  (1217, .one (mkVLN "provisionSum" "сумма встречным предоставлением" 8 [3, 31, 4, 41])),
  (1218, .one (mkVLN "prepaidSum" "итоговая сумма в чеках (БСО) предоплатами" 6 [1129, 1130, 1131, 1132, 1145, 1146])),
  (1219, .one (mkVLN "creditSum" "итоговая сумма в чеках (БСО) постоплатами" 6 [1129, 1130, 1131, 1132, 1145, 1146])),
  (1220, .one (mkVLN "provisionSum" "итоговая сумма в чеках (БСО) встречными предоставлениями" 6 [])),
  (1221, .one (mkByte "printInMachineSign" "признак установки принтера в автомате" .none [])),
  (1222, .one (mkByte "paymentAgentByProductType" "признак агента по предмету расчета" .none [])),
  (1223, .one (mkSTLV "paymentAgentData" "данные агента" 512 (.str "1") [])),
  (1224, .one (mkSTLV "providerData" "данные поставщика" 512 (.str "1") [])),
  (1225, .one (mkString "providerName" "наименование поставщика" 256 .none [] false)),
  (1226, .one (mkString "providerInn" "ИНН поставщика" 12 .none [] false))
]

/-- The `DOCUMENTS` registry dict of the source, as an ordered association list. -/
def DOCUMENTS : List (Nat × DocEntry) :=
  DOCUMENTS_A ++ DOCUMENTS_B ++ DOCUMENTS_C ++ DOCUMENTS_D ++ DOCUMENTS_E

/-! ## Dict operations

Python dicts keep insertion order; they are modelled as ordered association
lists whose keys are unique on every path the source builds, with
first-occurrence lookup and in-place update. -/

/-- `d[k]` / `d.get(k)`: first binding of `k`. -/
def alistLookup {α : Type} [DecidableEq α] {β : Type}
    (l : List (α × β)) (k : α) : Option β :=
  match l with
  | [] => Option.none
  | (k', v) :: rest => if k' = k then some v else alistLookup rest k

/-- `d[k] = v`: replace the first binding of `k`, or append a new one. -/
def alistSet {α : Type} [DecidableEq α] {β : Type}
    (l : List (α × β)) (k : α) (v : β) : List (α × β) :=
  match l with
  | [] => [(k, v)]
  | (k', v') :: rest =>
    if k' = k then (k', v) :: rest else (k', v') :: alistSet rest k v

theorem alistLookup_mem {α : Type} [DecidableEq α] {β : Type}
    {l : List (α × β)} {k : α} {v : β}
    (h : alistLookup l k = some v) : (k, v) ∈ l := by
  induction l with
  | nil => simp [alistLookup] at h
  | cons p rest ih =>
    obtain ⟨k', v'⟩ := p
    simp only [alistLookup] at h
    by_cases hk : k' = k
    · simp only [if_pos hk, Option.some.injEq] at h
      subst hk; subst h; exact List.mem_cons_self _ _
    · simp only [if_neg hk] at h
      exact List.mem_cons_of_mem _ (ih h)

theorem alistLookup_set_ne {α : Type} [DecidableEq α] {β : Type}
    (l : List (α × β)) (k k' : α) (v : β) (h : k ≠ k') :
    alistLookup (alistSet l k v) k' = alistLookup l k' := by
  induction l with
  | nil => simp [alistSet, alistLookup, h]
  | cons p rest ih =>
    obtain ⟨k0, v0⟩ := p
    by_cases h0 : k0 = k
    · subst h0
      have : k0 ≠ k' := h
      simp [alistSet, alistLookup, this]
    · simp only [alistSet, if_neg h0, alistLookup]
      by_cases h1 : k0 = k' <;> simp [h1, ih]

theorem alistLookup_set_eq {α : Type} [DecidableEq α] {β : Type}
    (l : List (α × β)) (k : α) (v : β) :
    alistLookup (alistSet l k v) k = some v := by
  induction l with
  | nil => simp [alistSet, alistLookup]
  | cons p rest ih =>
    obtain ⟨k0, v0⟩ := p
    by_cases h0 : k0 = k
    · subst h0; simp [alistSet, alistLookup]
    · simp [alistSet, alistLookup, h0, ih]

/-! ## `_group_tags` and `_update_tag_value` -/

/-- A value of a grouped index: `(ty, tag)` tuples, possibly collected into
lists on key collisions. -/
inductive GVal where
  | pair (ty : Nat) (t : Tag)
  | list (vs : List GVal)
  deriving Repr

/-- `result[k].append(v)` in `_group_tags`: only reachable when the stored
value is a list (the branch guard tests `v`, not the stored value, so with
pair-shaped `v` this is in fact never executed by the source). -/
def gvalAppend (old v : GVal) : GVal :=
  match old with
  | .list xs => .list (xs ++ [v])
  | _ => .list [v]

/-- One iteration of the `_group_tags` inner loop: insert `(ty, t)` under
key `k`.  The `elif isinstance(v, list)` branch of the source tests the
*new* value `v` (a tuple, never a list), so a second collision wraps the
stored value again instead of appending — faithfully mirrored here. -/
def groupStep (result : List (String × GVal)) (k : String) (v : GVal) :
    List (String × GVal) :=
  match alistLookup result k with
  | Option.none => result ++ [(k, v)]
  | some old =>
    match v with
    | .list _ => alistSet result k (gvalAppend old v)
    | _ => alistSet result k (.list [old, v])

/-- Descriptors of one `DOCUMENTS` value, in iteration order. -/
def entryTags : DocEntry → List Tag
  | .one t => [t]
  | .many ts => ts

/-- `_group_tags(docs, group_by)`: group the descriptors by an attribute,
collecting colliding keys into lists. -/
def groupTags (docs : List (Nat × DocEntry)) (groupBy : Tag → String) :
    List (String × GVal) :=
  docs.foldl
    (fun result p =>
      (entryTags p.2).foldl
        (fun result t => groupStep result (groupBy t) (.pair p.1 t))
        result)
    []

/-- `_update_tag_value(doc)`: write each tag's id into its descriptor
(`i.ty = ty`).  The source mutates the shared descriptor objects after
building the grouped indexes; the final state is the same as building
everything from the updated table, which is what the model does. -/
def updateTagValue (docs : List (Nat × DocEntry)) : List (Nat × DocEntry) :=
  docs.map fun p =>
    match p.2 with
    | .one t => (p.1, .one { t with ty := some p.1 })
    | .many ts => (p.1, .many (ts.map fun t => { t with ty := some p.1 }))

/-- The `DOCUMENTS` table after module initialization (`_update_tag_value`
has run). -/
def documentsU : List (Nat × DocEntry) :=
  updateTagValue DOCUMENTS

/-- `DOCS_BY_DESC = _group_tags(DOCUMENTS, group_by='desc')` (state after
module initialization). -/
def DOCS_BY_DESC : List (String × GVal) :=
  groupTags documentsU (fun t => t.desc)

/-- `DOCS_BY_NAME = _group_tags(DOCUMENTS, group_by='name')` (state after
module initialization). -/
def DOCS_BY_NAME : List (String × GVal) :=
  groupTags documentsU (fun t => t.name)

/-- The whole module-initialization pipeline on an arbitrary tag table:
build both grouped indexes and set the tag ids.  It has no failure path —
no branch of `_group_tags` or `_update_tag_value` raises. -/
def buildRegistry (docs : List (Nat × DocEntry)) :
    List (String × GVal) × List (String × GVal) × List (Nat × DocEntry) :=
  let u := updateTagValue docs
  (groupTags u (fun t => t.desc), groupTags u (fun t => t.name), u)

/-! ## Tag resolution -/

/-- `self.ty in d.parents` for `self.ty : Option Nat` — `None` is never a
member of a list of ints. -/
def parentMem (parentTy : Option Nat) (parents : List Nat) : Bool :=
  match parentTy with
  | some p => parents.contains p
  | Option.none => false

/-- `STLV._select_tag_by_parent(ty)` with explicit `self.ty`: fetch
`DOCUMENTS[ty]`; a non-list value is returned unconditionally; in a
candidate list the first descriptor whose (truthy) `parents` contains
`self.ty` wins; otherwise `ProtocolError`. -/
def selectTagByParent (selfTy : Option Nat) (ty : Nat) : Except PyErr Tag :=
  match alistLookup documentsU ty with
  | Option.none => .error .keyError
  | some (.one t) => .ok t
  | some (.many ds) =>
    match ds.find? (fun d => !d.parents.isEmpty && parentMem selfTy d.parents) with
    | some d => .ok d
    | Option.none => .error .protocolError

/-- The candidate-scanning loop of `_select_tag_by_key`: return the first
element whose (truthy) `parents` contains `parent_ty`, or — when
`parent_ty` is `None` — the first element with falsy `parents`; else
`ProtocolError`.  A nested-list element would make the source crash on
`el[1].parents` (`AttributeError`); that shape only arises from three or
more collisions on one key, which the registry never produces. -/
def selectScanEls (parentTy : Option Nat) : List GVal → Except PyErr (Nat × Tag)
  | [] => .error .protocolError
  | .pair ty t :: rest =>
    if !t.parents.isEmpty && parentMem parentTy t.parents then .ok (ty, t)
    else if parentTy.isNone && t.parents.isEmpty then .ok (ty, t)
    else selectScanEls parentTy rest
  | .list _ :: _ => .error .attributeError

/-- `_select_tag_by_key(key, docs, parent_ty)`: a tuple value is returned
unconditionally; a list value is scanned with `selectScanEls`; any other
shape raises `ProtocolError`. -/
def selectTagByKey (key : String) (docs : List (String × GVal))
    (parentTy : Option Nat) : Except PyErr (Nat × Tag) :=
  match alistLookup docs key with
  | Option.none => .error .keyError
  | some (.pair ty t) => .ok (ty, t)
  | some (.list els) => selectScanEls parentTy els

/-! ## Decoded values and `STLV.unpack` -/

/-- A decoded Python value: integers (from `Byte`/`U16`/`U32`/`UnixTime`/
`VLN`), strings (`String`/`ByteArray`), exact decimals as scale/magnitude
pairs (`FVLN`, before the final `float` conversion), nested dicts (`STLV`)
and lists (repeated tags). -/
inductive Value where
  | int (n : Nat)
  | str (s : PyStr)
  | dec (scale : Int) (mag : Nat)
  | map (m : List (String × Value))
  | list (vs : List Value)
  deriving Repr

/-- `doc.cardinality in {'*', '+'}` guarded by `hasattr(doc, 'cardinality')`:
true only for an attribute holding the plain string `'*'` or `'+'` — not
for `None`, not for the 1-tuples stored by `U32`/`U16`, not for a missing
attribute. -/
def cardRepeats : PyCard → Bool
  | .str "*" => true
  | .str "+" => true
  | _ => false

/-- Insert one decoded value into the result dict, following the
cardinality branch of `STLV.unpack`: repeated tags accumulate in a list
under the field name (`AttributeError` if an earlier non-repeated write put
a non-list there), all others overwrite. -/
def stlvInsert (result : List (String × Value)) (doc : Tag) (value : Value) :
    Except PyErr (List (String × Value)) :=
  if cardRepeats doc.cardinality then
    match alistLookup result doc.name with
    | Option.none => .ok (alistSet result doc.name (.list [value]))
    | some (.list vs) => .ok (alistSet result doc.name (.list (vs ++ [value])))
    | some _ => .error .attributeError
  else
    .ok (alistSet result doc.name value)

mutual

/-- `doc.unpack(payload)` dispatched on the descriptor class.  `fuel`
bounds the recursion through nested `STLV` containers; any value at least
the payload length is enough, and the wrapper `STLV.unpack` below always
supplies one. -/
def tagUnpack : Nat → Tag → List Nat → Except PyErr Value
  | 0, _, _ => .error .fuel
  | fuel + 1, t, data =>
    match t.codec with
    | .byte => (Byte.unpack data).map .int
    | .u32 => (U32.unpack data).map .int
    | .u16 => (U16.unpack data).map .int
    | .unixTime => (UnixTime.unpack data).map .int
    | .string => (StringTag.unpack t.maxlen t.strip data).map .str
    | .byteArray => (ByteArray.unpack t.maxlen data).map .str
    | .vln => (VLN.unpack t.maxlen data).map .int
    | .fvln => (FVLN.unpack t.maxlen data).map fun p => .dec p.1 p.2
    | .stlv =>
      if data.length > t.maxlen then .error .valueError
      else (stlvLoop fuel t.ty data []).map .map

/-- The `while len(data) > 0` loop of `STLV.unpack`: read a `<HH` record
header (raising if fewer than 4 bytes remain), resolve the tag in the
context of the enclosing tag, decode the payload slice
`data[4:4+length]` — silently clamped by Python slicing when `length`
overruns the buffer — insert, and continue after the record. -/
def stlvLoop (fuel : Nat) (selfTy : Option Nat) (data : List Nat)
    (result : List (String × Value)) : Except PyErr (List (String × Value)) :=
  match fuel with
  | 0 => .error .fuel
  | fuel + 1 =>
    if data.isEmpty then .ok result
    else if data.length < 4 then .error .structError
    else
      match selectTagByParent selfTy (leNat (data.take 2)) with
      | .error e => .error e
      | .ok doc =>
        let length := leNat ((data.drop 2).take 2)
        match tagUnpack fuel doc ((data.drop 4).take length) with
        | .error e => .error e
        | .ok value =>
          match stlvInsert result doc value with
          | .error e => .error e
          | .ok result => stlvLoop fuel selfTy (data.drop (4 + length)) result

end

/-- `STLV.unpack(data)` on the container descriptor `t` (including its
leading `maxlen` check via the `tagUnpack` dispatch), with enough fuel for
any input of this length. -/
def STLV.unpack (t : Tag) (data : List Nat) : Except PyErr Value :=
  tagUnpack (data.length + 1) t data

/-! ## `extract_fiscal_sign_for_print` and field normalization -/

/-- `MAX_UINT_32 = 2**32 - 1`. -/
def MAX_UINT_32 : Nat := 2 ^ 32 - 1

/-- `extract_fiscal_sign_for_print(full_sign)`: values within the 32-bit
range pass through; larger values are re-packed as 8 bytes big-endian
(raising for values outside `[0, 2^64)`), bytes 2..5 are taken and read
back little-endian. -/
def extract_fiscal_sign_for_print (fullSign : Nat) : Except PyErr Nat :=
  if fullSign ≤ MAX_UINT_32 then .ok fullSign
  else if fullSign < 2 ^ 64 then
    let bn := beBytes 8 fullSign
    let data := (bn.drop 2).take 4
    .ok (leNat (data ++ List.replicate (8 - data.length) 0))
  else .error .structError

/-- Python truthiness of a decoded value: `0`, `''`, `[]` and `{}` are
falsy. -/
def pyTruthy : Value → Bool
  | .int n => n ≠ 0
  | .str s => !s.isEmpty
  | .dec _ _ => true
  | .map m => !m.isEmpty
  | .list vs => !vs.isEmpty

/-- `ProtocolPacker._format_inn(inn)`: falsy values pass through; strings
are stripped, and a string longer than 10 characters that starts with two
zeros and is not the all-zero 12-digit placeholder loses its first two
characters. -/
def _format_inn (inn : PyStr) : PyStr :=
  let inn := pyStrip inn
  if 10 < inn.length ∧ inn.take 2 = [48, 48] ∧ inn ≠ List.replicate 12 48 then
    inn.drop 2
  else inn

/-- `ProtocolPacker._format_phone(phone)`: falsy values pass through;
strings lose every non-digit character and, when anything is left, gain a
leading `+`. -/
def _format_phone (phone : PyStr) : PyStr :=
  let digits := phone.filter (fun b => 48 ≤ b && b ≤ 57)
  if digits.isEmpty then digits else 43 :: digits

/-- The `'fiscalSign'` step of `format_message_fields`: a present value is
replaced by `extract_fiscal_sign_for_print` of it — which needs an `int`
(comparing a non-number against `MAX_UINT_32` is a `TypeError`). -/
def fiscalSignStep (m : List (String × Value)) :
    Except PyErr (List (String × Value)) :=
  match alistLookup m "fiscalSign" with
  | Option.none => .ok m
  | some (.int n) =>
    (extract_fiscal_sign_for_print n).map fun r =>
      alistSet m "fiscalSign" (.int r)
  | some _ => .error .typeError

/-- The `'kktRegId'` step: a truthy present value is stripped (a truthy
non-string has no `.strip`, `AttributeError`). -/
def kktRegIdStep (m : List (String × Value)) :
    Except PyErr (List (String × Value)) :=
  match alistLookup m "kktRegId" with
  | Option.none => .ok m
  | some v =>
    if pyTruthy v then
      match v with
      | .str s => .ok (alistSet m "kktRegId" (.str (pyStrip s)))
      | _ => .error .attributeError
    else .ok m

/-- `_format_inn` lifted to a decoded value: falsy values are returned
unchanged (the `if not inn: return inn` early exit), truthy strings are
formatted, anything else crashes on `.strip()`. -/
def formatInnValue (v : Value) : Except PyErr Value :=
  if pyTruthy v then
    match v with
    | .str s => .ok (.str (_format_inn s))
    | _ => .error .attributeError
  else .ok v

/-- `_format_phone` lifted to a decoded value, same falsy early exit. -/
def formatPhoneValue (v : Value) : Except PyErr Value :=
  if pyTruthy v then
    match v with
    | .str s => .ok (.str (_format_phone s))
    | _ => .error .typeError
  else .ok v

/-- One iteration of the `inn_fields` loop: format the field if present. -/
def innStep (m : List (String × Value)) (field : String) :
    Except PyErr (List (String × Value)) :=
  match alistLookup m field with
  | Option.none => .ok m
  | some v => (formatInnValue v).map (alistSet m field)

/-- One iteration of the `phone_fields` loop: a list value is formatted
element-wise, any other present value directly. -/
def phoneStep (m : List (String × Value)) (field : String) :
    Except PyErr (List (String × Value)) :=
  match alistLookup m field with
  | Option.none => .ok m
  | some (.list vs) =>
    (vs.mapM formatPhoneValue).map fun vs' => alistSet m field (.list vs')
  | some v => (formatPhoneValue v).map (alistSet m field)

/-- The `inn_fields` list of `format_message_fields` — note
`'operatorTransportInn'`, which is not the registry name of any tag
(tag 1016 is named `operatorTransferInn`). -/
def innFields : List String :=
  ["userInn", "ofdInn", "operatorInn", "operatorTransportInn"]

/-- The `phone_fields` list of `format_message_fields`. -/
def phoneFields : List String :=
  ["paymentAgentPhone", "operatorToReceivePhone", "operatorPhoneToTransfer",
   "bankSubagentPhone", "paymentSubagentPhone"]

/-- A `for field in fields:` loop applying one formatting step per listed
field, stopping at the first raised error. -/
def runSteps
    (step : List (String × Value) → String → Except PyErr (List (String × Value)))
    (fields : List String) (m : List (String × Value)) :
    Except PyErr (List (String × Value)) :=
  match fields with
  | [] => .ok m
  | f :: rest =>
    match step m f with
    | .error e => .error e
    | .ok m => runSteps step rest m

/-- `ProtocolPacker.format_message_fields(container_message)`: the
fiscal-sign rewrite, the `kktRegId` strip, then INN formatting over
`inn_fields` and phone formatting over `phone_fields`. -/
def format_message_fields (m : List (String × Value)) :
    Except PyErr (List (String × Value)) :=
  match fiscalSignStep m with
  | .error e => .error e
  | .ok m =>
    match kktRegIdStep m with
    | .error e => .error e
    | .ok m =>
      match runSteps innStep innFields m with
      | .error e => .error e
      | .ok m => runSteps phoneStep phoneFields m

/-! ## Fixtures and supporting lemmas -/

/-- `TASKCOM_CONTINER_ACK_FD_1` of `tests/emu_test.py`: a recorded container
(32-byte frame header + body) whose CRC field holds `0xef45`, the value the
test's `crc_calc` reproduces from `raw[:2] + raw[4:]`. -/
def taskcomAckFd1 : List Nat :=
  [119, 0, 69, 239, 90, 7, 1, 16, 9, 153, 153, 7, 137, 2, 1, 50, 103, 0, 0,
   1, 225, 221, 48, 78, 26, 147, 33, 173, 0, 2, 0, 77, 7, 0, 73, 0, 249, 3,
   12, 0, 55, 55, 48, 52, 50, 49, 49, 50, 48, 49, 32, 32, 54, 4, 8, 0, 136,
   6, 134, 206, 136, 48, 0, 3, 17, 4, 16, 0, 57, 57, 57, 57, 48, 55, 56, 57,
   48, 50, 48, 49, 51, 50, 54, 55, 16, 4, 4, 0, 1, 0, 0, 0, 244, 3, 4, 0,
   48, 201, 230, 102, 44, 4, 5, 0, 254, 3, 1, 0, 14, 130, 6, 54, 147, 125,
   237, 144, 107, 0, 0]

/-- A concrete frame header (an `operatorAck` shell) used to separate the
two CRC-input conventions. -/
def sampleHeader : FrameHeader :=
  ⟨60, 0, 7, [16, 9], [153, 153, 7, 137, 2, 1, 50, 103], [0, 0, 1],
   List.replicate 12 0⟩

/-- C1 — counterexample.  `recalculate_crc` does *not* compute the CRC over
the header bytes with both the length and crc fields excluded: on a
concrete header and body, the stored CRC differs from the CRC of
`pack[4:] + body`. -/
theorem recalculate_crc_not_length_excluded :
    (sampleHeader.recalculateCrc [1, 2, 3]).crc ≠
      crc16ccittFalse (sampleHeader.pack.drop 4 ++ [1, 2, 3]) := by
  decide

/-- C1 — amended.  `recalculate_crc` stores the CRC-16/CCITT-FALSE of
`pack[:2] + pack[4:] + body`: only the two crc bytes of the serialized
header are excluded and the length bytes are kept; on the recorded fixture
this convention reproduces the container's stored check value `0xef45`. -/
theorem recalculate_crc_keeps_length_field :
    (∀ (h : FrameHeader) (body : Bytes),
      (h.recalculateCrc body).crc =
        crc16ccittFalse (h.pack.take 2 ++ h.pack.drop 4 ++ body))
  ∧ crc16ccittFalse (taskcomAckFd1.take 2 ++ taskcomAckFd1.drop 4) = 0xef45 := by
  constructor
  · intro h body
    simp only [FrameHeader.recalculateCrc]
  · show crc16Update 65535 _ = 0xef45
    have hsplit : taskcomAckFd1.take 2 ++ taskcomAckFd1.drop 4 =
        [119, 0, 90, 7, 1, 16, 9, 153, 153, 7, 137, 2, 1, 50, 103, 0, 0, 1, 225, 221, 48, 78, 26, 147] ++ ([33, 173, 0, 2, 0, 77, 7, 0, 73, 0, 249, 3, 12, 0, 55, 55, 48, 52, 50, 49, 49, 50, 48, 49] ++ ([32, 32, 54, 4, 8, 0, 136, 6, 134, 206, 136, 48, 0, 3, 17, 4, 16, 0, 57, 57, 57, 57, 48, 55] ++ ([56, 57, 48, 50, 48, 49, 51, 50, 54, 55, 16, 4, 4, 0, 1, 0, 0, 0, 244, 3, 4, 0, 48, 201] ++ ([230, 102, 44, 4, 5, 0, 254, 3, 1, 0, 14, 130, 6, 54, 147, 125, 237, 144, 107, 0, 0])))) := by
      decide
    rw [hsplit, crc16Update_append, crc16Update_append, crc16Update_append,
      crc16Update_append]
    have h1 : crc16Update 65535
        [119, 0, 90, 7, 1, 16, 9, 153, 153, 7, 137, 2, 1, 50, 103, 0, 0, 1, 225, 221, 48, 78, 26, 147] = 39690 := by decide
    rw [h1]
    have h2 : crc16Update 39690
        [33, 173, 0, 2, 0, 77, 7, 0, 73, 0, 249, 3, 12, 0, 55, 55, 48, 52, 50, 49, 49, 50, 48, 49] = 53727 := by decide
    rw [h2]
    have h3 : crc16Update 53727
        [32, 32, 54, 4, 8, 0, 136, 6, 134, 206, 136, 48, 0, 3, 17, 4, 16, 0, 57, 57, 57, 57, 48, 55] = 5806 := by decide
    rw [h3]
    have h4 : crc16Update 5806
        [56, 57, 48, 50, 48, 49, 51, 50, 54, 55, 16, 4, 4, 0, 1, 0, 0, 0, 244, 3, 4, 0, 48, 201] = 39683 := by decide
    rw [h4]
    decide

/-- C4.  `VLN.pack` serializes the value as 8 little-endian bytes; when
`maxlen < 8` it returns the truncated prefix exactly when every discarded
high-order byte is zero and raises a range error otherwise; packing
`0x1_00000000` with `maxlen = 4` fails while packing `1` succeeds and
unpacks back to `1`. -/
theorem vln_pack_truncation :
    (∀ maxlen v, v < 2 ^ 64 →
      VLN.pack maxlen v =
        if maxlen < 8 then
          (if (leBytes 8 v).drop maxlen = List.replicate (8 - maxlen) 0 then
            .ok ((leBytes 8 v).take maxlen)
          else .error .valueError)
        else .ok (leBytes 8 v))
  ∧ VLN.pack 4 4294967296 = .error .valueError
  ∧ VLN.pack 4 1 = .ok [1, 0, 0, 0]
  ∧ VLN.unpack 4 [1, 0, 0, 0] = .ok 1 := by
  refine ⟨?_, by decide, by decide, by decide⟩
  intro maxlen v hv
  unfold VLN.pack vlnTrim
  rw [if_pos hv, leBytes_length]
  have hdl : ((leBytes 8 v).drop maxlen).length = 8 - maxlen := by
    rw [List.length_drop, leBytes_length]
  by_cases hm : maxlen < 8
  · rw [if_pos hm, if_pos hm, hdl]
    by_cases he : (leBytes 8 v).drop maxlen = List.replicate (8 - maxlen) 0
    · rw [if_neg (by simpa using he), if_pos he]
    · rw [if_pos (by simpa using he), if_neg he]
  · rw [if_neg hm, if_neg hm]

/-- C4 — witness at `maxlen = 4`, `v = 1`. -/
theorem vln_pack_truncation_witness : VLN.pack 4 1 = .ok [1, 0, 0, 0] := by
  have h := vln_pack_truncation.1 4 1 (by decide)
  simpa using h

/-- `str.index` finds nothing when the character is absent. -/
theorem pyIndex_eq_none {c : Nat} {s : List Nat} (h : c ∉ s) :
    pyIndex c s = Option.none := by
  induction s with
  | nil => rfl
  | cons b rest ih =>
    simp only [List.mem_cons, not_or] at h
    simp [pyIndex, Ne.symm h.1, ih h.2]

/-- C9.  `FVLN.pack` raises for every input whose decimal string contains
no `'.'` (such as `str(5) = "5"`), whatever `maxlen` is: `str.index('.')`
raises `ValueError` before any packing happens. -/
theorem fvln_pack_requires_decimal_point (maxlen : Nat) (s : PyStr)
    (h : 46 ∉ s) : FVLN.pack maxlen s = .error .valueError := by
  unfold FVLN.pack
  rw [pyIndex_eq_none h]

/-- C9 — witness: the integer `5` (decimal string `"5"`) cannot be packed,
even though the value fits any `maxlen`. -/
theorem fvln_pack_requires_decimal_point_witness :
    FVLN.pack 8 [53] = .error .valueError :=
  fvln_pack_requires_decimal_point 8 [53] (by decide)

/-! ## C7: registry construction performs no ambiguity validation -/

/-- Two lists of tag ids with no common element. -/
def disjointNat (l1 l2 : List Nat) : Bool :=
  l1.all fun x => !l2.contains x

/-- All lists in the collection pairwise disjoint. -/
def pairwiseDisjoint : List (List Nat) → Bool
  | [] => true
  | l :: rest => rest.all (disjointNat l) && pairwiseDisjoint rest

/-- The spec's ambiguity invariant for one candidate list: at most one
descriptor with empty `allowed_parents`, and the non-empty parent sets
pairwise disjoint. -/
def candidateListUnambiguous (ds : List Tag) : Bool :=
  ((ds.filter fun d => d.parents.isEmpty).length ≤ 1) &&
    pairwiseDisjoint ((ds.map fun d => d.parents).filter fun l => !l.isEmpty)

/-- The spec's ambiguity invariant over a whole tag table. -/
def registryUnambiguous (docs : List (Nat × DocEntry)) : Bool :=
  docs.all fun p =>
    match p.2 with
    | .one _ => true
    | .many ds => candidateListUnambiguous ds

/-- A tag table violating the ambiguity invariant: one id with two
candidates, both with empty `allowed_parents`. -/
def ambiguousDocs : List (Nat × DocEntry) :=
  [(500, .many [mkString "a" "d1" 10 .none [] false,
                mkString "b" "d2" 10 .none [] false])]

/-- C7 — counterexample.  Registry construction does not fail on an
ambiguous table: the full construction pipeline on `ambiguousDocs` — whose
single candidate list has two empty-parent descriptors — succeeds, keeping
both ambiguous candidates in both indexes. -/
theorem registry_build_accepts_ambiguous :
    registryUnambiguous ambiguousDocs = false
  ∧ buildRegistry ambiguousDocs =
      ([("d1", .pair 500 ⟨"a", "d1", .string, 10, .none, [], false, some 500⟩),
        ("d2", .pair 500 ⟨"b", "d2", .string, 10, .none, [], false, some 500⟩)],
       [("a", .pair 500 ⟨"a", "d1", .string, 10, .none, [], false, some 500⟩),
        ("b", .pair 500 ⟨"b", "d2", .string, 10, .none, [], false, some 500⟩)],
       [(500, .many [⟨"a", "d1", .string, 10, .none, [], false, some 500⟩,
                     ⟨"b", "d2", .string, 10, .none, [], false, some 500⟩])]) := by
  exact ⟨by decide, rfl⟩

/-- C7 — amended.  Registry construction (`_group_tags` and
`_update_tag_value`) contains no ambiguity check and cannot fail; the
shipped `DOCUMENTS` table does happen to satisfy the invariant — every
multi-candidate list has at most one empty parent set and pairwise-disjoint
non-empty parent sets. -/
theorem documents_registry_unambiguous :
    registryUnambiguous DOCUMENTS = true := by
  decide

/-! ## C2: resolution by id agrees with resolution by name -/

/-- Modelled from the spec: the resolution rule both directions are said to
share — the first candidate whose `allowed_parents` contains the enclosing
tag id or, when there is no enclosing tag (document root), the first
candidate whose `allowed_parents` is empty. -/
def resolveBySpec (ds : List Tag) (parentTy : Option Nat) : Option Tag :=
  match parentTy with
  | some p => ds.find? fun d => d.parents.contains p
  | Option.none => ds.find? fun d => d.parents.isEmpty

/-- On candidate lists whose parent sets are all non-empty — which is every
candidate list of `DOCUMENTS` — the find of `_select_tag_by_parent` equals
the spec's resolution rule. -/
theorem find_code_eq_resolveBySpec (ds : List Tag) (parentTy : Option Nat)
    (hne : ∀ d ∈ ds, d.parents ≠ []) :
    ds.find? (fun d => !d.parents.isEmpty && parentMem parentTy d.parents) =
      resolveBySpec ds parentTy := by
  induction ds with
  | nil => cases parentTy <;> rfl
  | cons d rest ih =>
    have hd : d.parents ≠ [] := hne d (List.mem_cons_self _ _)
    have hrest : ∀ t ∈ rest, t.parents ≠ [] := fun t ht =>
      hne t (List.mem_cons_of_mem _ ht)
    have hie : d.parents.isEmpty = false := by
      cases hp : d.parents with
      | nil => exact absurd hp hd
      | cons a l => rfl
    cases parentTy with
    | none =>
      simp only [resolveBySpec] at ih ⊢
      rw [List.find?_cons_of_neg _ (by simp [parentMem]),
        List.find?_cons_of_neg _ (by simp [hie])]
      exact ih hrest
    | some p =>
      simp only [resolveBySpec] at ih ⊢
      by_cases hc : d.parents.contains p = true
      · rw [@List.find?_cons_of_pos _
            (fun t => !t.parents.isEmpty && parentMem (some p) t.parents) d rest
            (by simp only [hie, Bool.not_false, Bool.true_and]; exact hc),
          @List.find?_cons_of_pos _ (fun t => t.parents.contains p) d rest hc]
      · rw [@List.find?_cons_of_neg _
            (fun t => !t.parents.isEmpty && parentMem (some p) t.parents) d rest
            (by simp only [hie, Bool.not_false, Bool.true_and]; exact hc),
          @List.find?_cons_of_neg _ (fun t => t.parents.contains p) d rest hc]
        exact ih hrest

/-- On the same candidate lists, the scanning loop of `_select_tag_by_key`
selects exactly the candidate that `_select_tag_by_parent`'s find selects
(paired with the tag id), and errs exactly when it errs. -/
theorem selectScanEls_eq_find (ty : Nat) (ds : List Tag)
    (parentTy : Option Nat) (hne : ∀ d ∈ ds, d.parents ≠ []) :
    selectScanEls parentTy (ds.map fun d => GVal.pair ty d) =
      match ds.find? (fun d => !d.parents.isEmpty && parentMem parentTy d.parents) with
      | some d => .ok (ty, d)
      | Option.none => .error .protocolError := by
  induction ds with
  | nil => rfl
  | cons d rest ih =>
    have hd : d.parents ≠ [] := hne d (List.mem_cons_self _ _)
    have hrest : ∀ t ∈ rest, t.parents ≠ [] := fun t ht =>
      hne t (List.mem_cons_of_mem _ ht)
    have hie : d.parents.isEmpty = false := by
      cases hp : d.parents with
      | nil => exact absurd hp hd
      | cons a l => rfl
    by_cases hc : (!d.parents.isEmpty && parentMem parentTy d.parents) = true
    · simp only [List.map_cons, selectScanEls]
      rw [if_pos hc,
        @List.find?_cons_of_pos _
          (fun t => !t.parents.isEmpty && parentMem parentTy t.parents) d rest hc]
    · have hb : (parentTy.isNone && d.parents.isEmpty) = false := by
        rw [hie]; exact Bool.and_false _
      simp only [List.map_cons, selectScanEls]
      rw [if_neg hc, if_neg (by rw [hb]; simp),
        @List.find?_cons_of_neg _
          (fun t => !t.parents.isEmpty && parentMem parentTy t.parents) d rest hc]
      exact ih hrest

/-- Every multi-candidate list of the initialized registry consists of
descriptors with non-empty `allowed_parents`. -/
theorem documentsU_many_parents_nonempty :
    (documentsU.all fun p =>
      match p.2 with
      | .one _ => true
      | .many ds => ds.all fun d => !d.parents.isEmpty) = true := by
  decide

/-- Extract the non-emptiness fact for one looked-up candidate list. -/
theorem documentsU_lookup_many_nonempty {ty : Nat} {ds : List Tag}
    (h : alistLookup documentsU ty = some (.many ds)) :
    ∀ d ∈ ds, d.parents ≠ [] := by
  intro d hd
  have hmem := alistLookup_mem h
  have hall := documentsU_many_parents_nonempty
  rw [List.all_eq_true] at hall
  have h2 := hall _ hmem
  simp only at h2
  rw [List.all_eq_true] at h2
  have h3 := h2 d hd
  intro hp
  rw [hp] at h3
  simp at h3

/-- C2.  For every tag id whose `DOCUMENTS` candidate list holds more than
one descriptor (every `.many` entry), resolution by id behaves exactly as
the spec's shared rule describes — return the candidate whose
`allowed_parents` contains the enclosing tag id, or at document root the
candidate with empty `allowed_parents` (no such candidate exists, so root
resolution errs), and fail with a `ProtocolError` otherwise — and the
by-name candidate scan applied to the same candidates returns exactly the
same descriptor (or error). -/
theorem tag_id_resolution_matches_name_resolution (ty : Nat) (ds : List Tag)
    (parentTy : Option Nat)
    (h : alistLookup documentsU ty = some (.many ds)) :
    (selectTagByParent parentTy ty =
      match resolveBySpec ds parentTy with
      | some d => .ok d
      | Option.none => .error .protocolError)
  ∧ selectScanEls parentTy (ds.map fun d => GVal.pair ty d) =
      (selectTagByParent parentTy ty).map fun d => (ty, d) := by
  have hne := documentsU_lookup_many_nonempty h
  have hsel : selectTagByParent parentTy ty =
      match ds.find? (fun d => !d.parents.isEmpty && parentMem parentTy d.parents) with
      | some d => .ok d
      | Option.none => .error .protocolError := by
    unfold selectTagByParent
    rw [h]
  constructor
  · rw [hsel, find_code_eq_resolveBySpec ds parentTy hne]
  · rw [selectScanEls_eq_find ty ds parentTy hne, hsel]
    cases ds.find? (fun d => !d.parents.isEmpty && parentMem parentTy d.parents) <;> rfl

/-- The two descriptors registered under tag id 1016, after
initialization. -/
def tag1016Candidates : List Tag :=
  [⟨"operatorTransferInn", "ИНН оператора по переводу денежных средств",
    .string, 12, .none, [3, 4], true, some 1016⟩,
   ⟨"paymentProviderInn", "ИНН оператора перевода",
    .string, 12, .none, [1223], true, some 1016⟩]

/-- C2 — witness at tag id 1016 under enclosing tag 3 (a receipt). -/
theorem tag_id_resolution_witness :
    (selectTagByParent (some 3) 1016 =
      match resolveBySpec tag1016Candidates (some 3) with
      | some d => .ok d
      | Option.none => .error .protocolError)
  ∧ selectScanEls (some 3) (tag1016Candidates.map fun d => GVal.pair 1016 d) =
      (selectTagByParent (some 3) 1016).map fun d => (1016, d) :=
  tag_id_resolution_matches_name_resolution 1016 tag1016Candidates (some 3)
    (by decide)

/-- A descriptor as it stands after `_update_tag_value`: with its tag id
written into `ty`. -/
def mkTagged (t : Tag) (ty : Nat) : Tag :=
  { t with ty := some ty }

/-! ## C5 and C6: `STLV.unpack` behavior -/

/-- The `operatorAck` root descriptor (tag 7), as initialized. -/
def operatorAckTag : Tag :=
  mkTagged (mkSTLV "operatorAck" "подтверждение оператора" 512 (.str "1") []) 7

/-- The tag-1013 `kktNumber` descriptor, as initialized. -/
def kktNumberTag : Tag :=
  mkTagged (mkString "kktNumber" "Заводской номер ККТ" 20 .none [] false) 1013

/-- C5.  The registry holds `operatorAckTag` at id 7 and `kktNumberTag` at
id 1013; decoding an `operatorAck` body holding two records of tag 1101
(`Byte`, cardinality `'+'`) followed by two records of tag 1205 (`U32`,
cardinality `'+'`) collects the `Byte` values into a list but lets the
second `U32` record silently overwrite the first: the trailing comma in
`U32.__init__` stores the 1-tuple `('+',)` as `cardinality`, which fails
the `in {'*', '+'}` repetition test that the claim says every
repetition-cardinality descriptor passes. -/
theorem repeated_u32_tag_overwrites :
    alistLookup documentsU 7 = some (.one operatorAckTag)
  ∧ cardRepeats (mkU32 "correctionKktReasonCode" "x" (.str "+") []).cardinality
      = false
  ∧ STLV.unpack operatorAckTag
      [77, 4, 1, 0, 5, 77, 4, 1, 0, 6,
       181, 4, 4, 0, 1, 0, 0, 0, 181, 4, 4, 0, 2, 0, 0, 0] =
    .ok (.map [("correctionReasonCode", .list [.int 5, .int 6]),
               ("correctionKktReasonCode", .int 2)]) :=
  ⟨by decide, rfl, rfl⟩

/-- C6 — counterexample.  A record header declaring payload length 5 with
only 2 bytes remaining does not make `STLV.unpack` fail: the slice clamps
and the record decodes from the shortened payload. -/
theorem stlv_overrun_decodes_clamped :
    ([49, 50] : List Nat).length < 5
  ∧ STLV.unpack operatorAckTag [245, 3, 5, 0, 49, 50] =
      .ok (.map [("kktNumber", .str [49, 50])]) :=
  ⟨by decide, rfl⟩

/-- One unfolding of the decode loop (definitional). -/
theorem stlvLoop_succ (fuel : Nat) (selfTy : Option Nat) (data : List Nat)
    (result : List (String × Value)) :
    stlvLoop (fuel + 1) selfTy data result =
      (if data.isEmpty then .ok result
      else if data.length < 4 then .error .structError
      else
        match selectTagByParent selfTy (leNat (data.take 2)) with
        | .error e => .error e
        | .ok doc =>
          match tagUnpack fuel doc
              ((data.drop 4).take (leNat ((data.drop 2).take 2))) with
          | .error e => .error e
          | .ok value =>
            match stlvInsert result doc value with
            | .error e => .error e
            | .ok result =>
              stlvLoop fuel selfTy
                (data.drop (4 + leNat ((data.drop 2).take 2))) result) := rfl

/-- C6 — amended.  For *every* declared length `b0 + 256*b1 ≥ 2` — in
particular every length overrunning the 2 remaining payload bytes —
decoding a single tag-1013 record succeeds with the payload clamped to the
available bytes; `STLV.unpack` never raises for a length extending past
the buffer. -/
theorem stlv_unpack_clamps_overrun_length (b0 b1 : Nat)
    (hge : 2 <= b0 + 256 * b1) :
    STLV.unpack operatorAckTag [245, 3, b0, b1, 49, 50] =
      .ok (.map [("kktNumber", .str [49, 50])]) := by
  have hlen : leNat ((([245, 3, b0, b1, 49, 50] : List Nat).drop 2).take 2) =
      b0 + 256 * b1 := by simp [leNat]
  have htake : ([49, 50] : List Nat).take (b0 + 256 * b1) = [49, 50] := by
    apply List.take_of_length_le; simpa using hge
  have hdrop : ([245, 3, b0, b1, 49, 50] : List Nat).drop
      (4 + (b0 + 256 * b1)) = [] := by
    apply List.drop_eq_nil_of_le; simp; omega
  have hsel : selectTagByParent (some 7)
      (leNat (([245, 3, b0, b1, 49, 50] : List Nat).take 2)) =
      .ok kktNumberTag := by
    rw [show (([245, 3, b0, b1, 49, 50] : List Nat).take 2) = [245, 3] from rfl]
    decide
  show (stlvLoop 6 (some 7) [245, 3, b0, b1, 49, 50] []).map Value.map = _
  rw [show (6 : Nat) = 5 + 1 from rfl, stlvLoop_succ, if_neg (by simp),
    if_neg (by simp), hsel]
  dsimp only
  rw [hlen,
    show (([245, 3, b0, b1, 49, 50] : List Nat).drop 4) = [49, 50] from rfl,
    htake,
    show tagUnpack 5 kktNumberTag [49, 50] = .ok (.str [49, 50]) from rfl]
  dsimp only
  rw [show stlvInsert [] kktNumberTag (.str [49, 50]) =
    .ok [("kktNumber", .str [49, 50])] from rfl]
  dsimp only
  rw [hdrop]
  rfl

/-- C6 — witness of the amended theorem at declared length 500
(bytes `244, 1`), overrunning the 2 remaining bytes. -/
theorem stlv_unpack_clamps_overrun_length_witness :
    STLV.unpack operatorAckTag [245, 3, 244, 1, 49, 50] =
      .ok (.map [("kktNumber", .str [49, 50])]) :=
  stlv_unpack_clamps_overrun_length 244 1 (by decide)

/-! ## C8: fiscal sign for print -/

/-- `struct.pack('<Q', v)` written out (definitional). -/
theorem leBytes_eight (v : Nat) :
    leBytes 8 v =
      [v % 256, v / 256 % 256, v / 256 / 256 % 256, v / 256 / 256 / 256 % 256,
       v / 256 / 256 / 256 / 256 % 256, v / 256 / 256 / 256 / 256 / 256 % 256,
       v / 256 / 256 / 256 / 256 / 256 / 256 % 256,
       v / 256 / 256 / 256 / 256 / 256 / 256 / 256 % 256] := rfl

/-- C8.  `extract_fiscal_sign_for_print` is the identity on values up to
`0xFFFFFFFF`; every larger (64-bit-representable) value is re-encoded as 8
big-endian bytes, of which bytes 2..5 — the arithmetic below: byte 2 is
`v / 2^40 % 256`, byte 5 is `v / 2^16 % 256` — are read back
little-endian. -/
theorem extract_fiscal_sign_spec (v : Nat) (hv : v < 2 ^ 64) :
    extract_fiscal_sign_for_print v =
      .ok (if v ≤ 4294967295 then v
        else v / 2 ^ 40 % 256 + 256 * (v / 2 ^ 32 % 256) +
          65536 * (v / 2 ^ 24 % 256) + 16777216 * (v / 2 ^ 16 % 256)) := by
  unfold extract_fiscal_sign_for_print MAX_UINT_32
  by_cases hle : v ≤ 4294967295
  · rw [if_pos (show v ≤ 2 ^ 32 - 1 by omega), if_pos hle]
  · rw [if_neg (show ¬v ≤ 2 ^ 32 - 1 by omega), if_pos hv, if_neg hle]
    have hdata : (((beBytes 8 v).drop 2).take 4) =
        [v / 256 / 256 / 256 / 256 / 256 % 256,
         v / 256 / 256 / 256 / 256 % 256,
         v / 256 / 256 / 256 % 256,
         v / 256 / 256 % 256] := rfl
    show Except.ok (leNat ((((beBytes 8 v).drop 2).take 4) ++
      List.replicate (8 - (((beBytes 8 v).drop 2).take 4).length) 0)) = _
    rw [hdata]
    congr 1
    show v / 256 / 256 / 256 / 256 / 256 % 256 +
      256 * (v / 256 / 256 / 256 / 256 % 256 +
        256 * (v / 256 / 256 / 256 % 256 +
          256 * (v / 256 / 256 % 256 +
            256 * (0 + 256 * (0 + 256 * (0 + 256 * 0)))))) = _
    simp only [Nat.div_div_eq_div_mul]
    norm_num
    ring

/-- C8 — witnesses: `5` (below the threshold) passes through; the 6-byte
value `0x123456789AB` maps to `0x67452301` (bytes `01 23 45 67`, read
little-endian). -/
theorem extract_fiscal_sign_spec_witness :
    extract_fiscal_sign_for_print 5 = .ok 5
  ∧ extract_fiscal_sign_for_print 1250999896491 = .ok 1732584193 := by
  constructor
  · have h := extract_fiscal_sign_spec 5 (by norm_num)
    simpa using h
  · have h := extract_fiscal_sign_spec 1250999896491 (by norm_num)
    norm_num at h
    exact h

/-! ## C3: scalar codec round trips -/

/-- What a successful truncation tells us: the output is a prefix that
zero-padding restores to the full buffer, and it fits both `maxlen` and the
original length. -/
theorem vlnTrim_ok {maxlen : Nat} {packed bs : List Nat}
    (h : vlnTrim maxlen packed = .ok bs) :
    bs ++ List.replicate (packed.length - bs.length) 0 = packed
  ∧ bs.length ≤ maxlen ∧ bs.length ≤ packed.length := by
  unfold vlnTrim at h
  by_cases hl : packed.length > maxlen
  · rw [if_pos hl] at h
    by_cases he : packed.drop maxlen =
        List.replicate (packed.drop maxlen).length 0
    · rw [if_neg (by simpa using he)] at h
      have hbs : bs = packed.take maxlen := by
        cases h; rfl
      subst hbs
      have hlt : (packed.take maxlen).length = maxlen := by
        rw [List.length_take]
        omega
      refine ⟨?_, by omega, by rw [hlt]; omega⟩
      rw [hlt]
      have hdl : (packed.drop maxlen).length = packed.length - maxlen := by
        rw [List.length_drop]
      rw [← hdl, ← he]
      exact List.take_append_drop maxlen packed
    · rw [if_pos (by simpa using he)] at h
      cases h
  · rw [if_neg hl] at h
    have hbs : bs = packed := by cases h; rfl
    subst hbs
    simp
    omega

/-- `VLN.unpack` inverts a successful `VLN.pack`. -/
theorem vln_roundtrip (maxlen v : Nat) (bs : List Nat) (hv : v < 2 ^ 64)
    (h : VLN.pack maxlen v = .ok bs) : VLN.unpack maxlen bs = .ok v := by
  unfold VLN.pack at h
  rw [if_pos hv] at h
  obtain ⟨hpad, hle, hlen8⟩ := vlnTrim_ok h
  rw [leBytes_length] at hpad hlen8
  unfold VLN.unpack
  rw [if_neg (by omega), if_neg (by omega)]
  rw [hpad, leNat_leBytes 8 v (by norm_num; exact hv)]

/-- `str.index` on a string assembled around its first occurrence. -/
theorem pyIndex_append_cons (ip fp : List Nat) (c : Nat) (h : c ∉ ip) :
    pyIndex c (ip ++ c :: fp) = some ip.length := by
  induction ip with
  | nil => simp [pyIndex]
  | cons a rest ih =>
    simp only [List.mem_cons, not_or] at h
    simp [pyIndex, Ne.symm h.1, ih h.2]

/-- Dropping past the assembled point position leaves the fractional
digits. -/
theorem drop_length_succ_append (ip fp : List Nat) (c : Nat) :
    (ip ++ c :: fp).drop (ip.length + 1) = fp := by
  induction ip with
  | nil => rfl
  | cons a rest ih => exact ih

/-- `int(s)` on a non-empty digit run parses to its decimal value. -/
theorem pyParseInt_digits (s : List Nat) (hne : s ≠ [])
    (hdig : ∀ d ∈ s, 48 ≤ d ∧ d ≤ 57) :
    pyParseInt s = some ((digitsVal s : Int)) := by
  unfold pyParseInt
  have hh : ¬s.headD 0 = 45 := by
    cases s with
    | nil => exact absurd rfl hne
    | cons d rest =>
      have := (hdig d (List.mem_cons_self _ _)).1
      simp only [List.headD_cons]
      omega
  have hall : (s.all fun d => decide (48 ≤ d ∧ d ≤ 57)) = true := by
    rw [List.all_eq_true]
    intro d hd
    exact decide_eq_true (hdig d hd)
  rw [if_neg hh, if_pos ⟨hne, hall⟩]

/-- `FVLN.unpack` inverts a successful `FVLN.pack` of a decimal string
`ip ++ "." ++ fp`, returning the fractional digit count and the digit
magnitude exactly. -/
theorem fvln_roundtrip (maxlen : Nat) (ip fp bs : List Nat)
    (hdig : ∀ d ∈ ip ++ fp, 48 ≤ d ∧ d ≤ 57) (hfp : fp ≠ [])
    (h : FVLN.pack maxlen (ip ++ 46 :: fp) = .ok bs) :
    FVLN.unpack maxlen bs = .ok ((fp.length : Int), digitsVal (ip ++ fp)) := by
  have h46 : 46 ∉ ip := by
    intro hmem
    have := (hdig 46 (List.mem_append_left _ hmem)).1
    omega
  have hsplit : (ip ++ 46 :: fp).take ip.length ++
      (ip ++ 46 :: fp).drop (ip.length + 1) = ip ++ fp := by
    rw [List.take_left, drop_length_succ_append]
  have hpp : (ip ++ 46 :: fp).length - 1 - ip.length = fp.length := by
    simp [List.length_append]
  unfold FVLN.pack at h
  rw [pyIndex_append_cons ip fp 46 h46] at h
  simp only [hsplit, hpp,
    pyParseInt_digits (ip ++ fp) (by simp [hfp]) hdig] at h
  by_cases hcond : (0 : Int) ≤ (digitsVal (ip ++ fp) : Int) ∧
      ((digitsVal (ip ++ fp) : Int)) < 2 ^ 64 ∧ fp.length ≤ 127
  · rw [if_pos hcond] at h
    have hm : digitsVal (ip ++ fp) < 2 ^ 64 := by exact_mod_cast hcond.2.1
    have htn : ((digitsVal (ip ++ fp) : Int)).toNat = digitsVal (ip ++ fp) :=
      Int.toNat_natCast _
    rw [htn] at h
    obtain ⟨hpad, hle, hlen9⟩ := vlnTrim_ok h
    have hplen : (fp.length :: leBytes 8 (digitsVal (ip ++ fp))).length = 9 := by
      simp [leBytes_length]
    rw [hplen] at hpad hlen9
    unfold FVLN.unpack
    rw [if_neg (by omega), if_neg (by omega), hpad]
    simp only [List.headD_cons, List.tail_cons]
    rw [leNat_leBytes 8 _ (by norm_num; exact hm)]
    unfold signedByte
    rw [if_neg (by omega)]
  · rw [if_neg hcond] at h
    cases h

/-- C3 — counterexample.  `ByteArray` does not round-trip: unpacking the
packed one-byte value `49` yields the four-character *string*
`"b'1'"` (the `str(...)` of the bytes), not the original byte. -/
theorem byteArray_roundtrip_fails :
    ByteArray.unpack 32 (ByteArray.pack [49]) = .ok [98, 39, 49, 39]
  ∧ ([98, 39, 49, 39] : PyStr) ≠ [49] :=
  ⟨rfl, by decide⟩

/-- C3 — amended.  `unpack ∘ pack` is the identity for `Byte`
(values 0..255), `VLN` (64-bit values whose encoding fits `maxlen`),
`FVLN` (decimal strings whose pack succeeds — the decoded scale/magnitude
pair is exactly the original digit string's), and non-stripping `String`
within `maxlen`; `12.34` round-trips exactly (scale 2, magnitude 1234).
A `strip=True` `String` descriptor returns the stripped text, and
`ByteArray.unpack` returns the textual repr of the bytes rather than the
bytes, so those two codecs do not satisfy the round-trip as claimed. -/
theorem scalar_codec_roundtrips :
    (∀ v : Nat, v < 256 → Byte.pack v = .ok [v] ∧ Byte.unpack [v] = .ok v)
  ∧ (∀ maxlen v bs, v < 2 ^ 64 → VLN.pack maxlen v = .ok bs →
      VLN.unpack maxlen bs = .ok v)
  ∧ (∀ maxlen ip fp bs, (∀ d ∈ ip ++ fp, 48 ≤ d ∧ d ≤ 57) → fp ≠ [] →
      FVLN.pack maxlen (ip ++ 46 :: fp) = .ok bs →
      FVLN.unpack maxlen bs = .ok ((fp.length : Int), digitsVal (ip ++ fp)))
  ∧ (∀ maxlen (s : PyStr), s.length ≤ maxlen →
      StringTag.unpack maxlen false (StringTag.pack s) = .ok s)
  ∧ (∀ maxlen (s : PyStr), s.length ≤ maxlen →
      StringTag.unpack maxlen true (StringTag.pack s) = .ok (pyStrip s))
  ∧ (∀ maxlen (b : Bytes), b ≠ [] → b.length ≤ maxlen →
      ByteArray.unpack maxlen (ByteArray.pack b) = .ok (pyBytesRepr b))
  ∧ (FVLN.pack 8 [49, 50, 46, 51, 52]).bind (FVLN.unpack 8) =
      .ok ((2 : Int), 1234) := by
  refine ⟨?_, vln_roundtrip, fvln_roundtrip, ?_, ?_, ?_, by decide⟩
  · intro v hv
    constructor
    · unfold Byte.pack
      rw [if_pos hv]
    · unfold Byte.unpack
      simp [leNat]
  · intro maxlen s hle
    unfold StringTag.pack StringTag.unpack
    by_cases h0 : s.length = 0
    · rw [if_pos h0, List.length_eq_zero.mp h0]
    · rw [if_neg h0, if_neg (by omega)]
      rfl
  · intro maxlen s hle
    unfold StringTag.pack StringTag.unpack
    by_cases h0 : s.length = 0
    · rw [if_pos h0, List.length_eq_zero.mp h0]
      rfl
    · rw [if_neg h0, if_neg (by omega)]
      rfl
  · intro maxlen b hne hle
    unfold ByteArray.pack ByteArray.unpack
    rw [if_neg (by simpa using fun hn => hne (List.length_eq_zero.mp hn)),
      if_neg (by omega)]

/-- C3 — witness: one instance of every conjunct. -/
theorem scalar_codec_roundtrips_witness :
    (Byte.pack 42 = .ok [42] ∧ Byte.unpack [42] = .ok 42)
  ∧ VLN.unpack 4 [1, 0, 0, 0] = .ok 1
  ∧ FVLN.unpack 8 [2, 210, 4, 0, 0, 0, 0, 0] = .ok ((2 : Int), 1234)
  ∧ StringTag.unpack 20 false (StringTag.pack [65, 66]) = .ok [65, 66]
  ∧ StringTag.unpack 12 true (StringTag.pack [32, 49, 32]) = .ok [49]
  ∧ ByteArray.unpack 32 (ByteArray.pack [50]) = .ok [98, 39, 50, 39] := by
  refine ⟨scalar_codec_roundtrips.1 42 (by norm_num),
    scalar_codec_roundtrips.2.1 4 1 [1, 0, 0, 0] (by norm_num) (by decide),
    ?_,
    scalar_codec_roundtrips.2.2.2.1 20 [65, 66] (by norm_num),
    ?_,
    ?_⟩
  · have h := scalar_codec_roundtrips.2.2.1 8 [49, 50] [51, 52]
      [2, 210, 4, 0, 0, 0, 0, 0] (by decide) (by decide) (by decide)
    simpa using h
  · have h := scalar_codec_roundtrips.2.2.2.2.1 12 [32, 49, 32] (by norm_num)
    simpa using h
  · have h := scalar_codec_roundtrips.2.2.2.2.2.1 32 [50] (by decide)
      (by norm_num)
    simpa using h

/-! ## C10: INN normalization touches only the four listed field names -/

/-- `Except.map` of an error is never `ok`. -/
theorem except_map_error_elim {β γ : Type} {fn : β → γ} {e : PyErr} {r : γ}
    (h : Except.map fn (Except.error e) = (Except.ok r : Except PyErr γ)) :
    False :=
  Except.noConfusion h

/-- `Except.map` of an `ok` determines the result. -/
theorem except_map_ok_inj {β γ : Type} {fn : β → γ} {w : β} {r : γ}
    (h : Except.map fn (Except.ok w) = (Except.ok r : Except PyErr γ)) :
    r = fn w :=
  (Except.ok.inj h).symm

/-- The fiscal-sign step leaves every other key's binding unchanged. -/
theorem fiscalSignStep_lookup_other {m r : List (String × Value)} {k : String}
    (h : fiscalSignStep m = .ok r) (hk : k ≠ "fiscalSign") :
    alistLookup r k = alistLookup m k := by
  unfold fiscalSignStep at h
  cases hl : alistLookup m "fiscalSign" with
  | none =>
    rw [hl] at h
    cases h
    rfl
  | some v =>
    rw [hl] at h
    cases v with
    | int n =>
      dsimp only at h
      cases he : extract_fiscal_sign_for_print n with
      | error e =>
        rw [he] at h
        exact (except_map_error_elim h).elim
      | ok w =>
        rw [he] at h
        rw [except_map_ok_inj h]
        exact alistLookup_set_ne m "fiscalSign" k _ (Ne.symm hk)
    | str s => cases h
    | dec a b => cases h
    | map mm => cases h
    | list vs => cases h

/-- The `kktRegId` step leaves every other key's binding unchanged. -/
theorem kktRegIdStep_lookup_other {m r : List (String × Value)} {k : String}
    (h : kktRegIdStep m = .ok r) (hk : k ≠ "kktRegId") :
    alistLookup r k = alistLookup m k := by
  unfold kktRegIdStep at h
  cases hl : alistLookup m "kktRegId" with
  | none =>
    rw [hl] at h
    cases h
    rfl
  | some v =>
    rw [hl] at h
    dsimp only at h
    by_cases ht : pyTruthy v = true
    · rw [if_pos ht] at h
      cases v with
      | str s =>
        cases h
        exact alistLookup_set_ne m "kktRegId" k _ (Ne.symm hk)
      | int n => cases h
      | dec a b => cases h
      | map mm => cases h
      | list vs => cases h
    · rw [if_neg ht] at h
      cases h
      rfl

/-- One INN-loop iteration leaves every other key's binding unchanged. -/
theorem innStep_lookup_other {m r : List (String × Value)} {f k : String}
    (h : innStep m f = .ok r) (hk : k ≠ f) :
    alistLookup r k = alistLookup m k := by
  unfold innStep at h
  cases hl : alistLookup m f with
  | none =>
    rw [hl] at h
    cases h
    rfl
  | some v =>
    rw [hl] at h
    dsimp only at h
    cases he : formatInnValue v with
    | error e =>
      rw [he] at h
      exact (except_map_error_elim h).elim
    | ok w =>
      rw [he] at h
      rw [except_map_ok_inj h]
      exact alistLookup_set_ne m f k _ (Ne.symm hk)

/-- One INN-loop iteration rewrites a present string binding of its own
field with `_format_inn`. -/
theorem innStep_lookup_self {m r : List (String × Value)} {f : String}
    {s : PyStr} (h : innStep m f = .ok r)
    (hl : alistLookup m f = some (.str s)) :
    alistLookup r f = some (.str (_format_inn s)) := by
  unfold innStep at h
  rw [hl] at h
  dsimp only at h
  unfold formatInnValue at h
  by_cases ht : pyTruthy (Value.str s) = true
  · rw [if_pos ht] at h
    rw [except_map_ok_inj h]
    exact alistLookup_set_eq m f _
  · rw [if_neg ht] at h
    rw [except_map_ok_inj h]
    have hs : s = [] := by
      unfold pyTruthy at ht
      simpa using ht
    subst hs
    rw [alistLookup_set_eq]
    rfl

/-- Helper for the non-list arm of the phone step. -/
theorem phoneStep_map_aux {m r : List (String × Value)} {f k : String}
    {v : Value} (h : Except.map (alistSet m f) (formatPhoneValue v) = .ok r)
    (hk : k ≠ f) : alistLookup r k = alistLookup m k := by
  cases he : formatPhoneValue v with
  | error e =>
    rw [he] at h
    exact (except_map_error_elim h).elim
  | ok w =>
    rw [he] at h
    rw [except_map_ok_inj h]
    exact alistLookup_set_ne m f k _ (Ne.symm hk)

/-- One phone-loop iteration leaves every other key's binding unchanged. -/
theorem phoneStep_lookup_other {m r : List (String × Value)} {f k : String}
    (h : phoneStep m f = .ok r) (hk : k ≠ f) :
    alistLookup r k = alistLookup m k := by
  unfold phoneStep at h
  cases hl : alistLookup m f with
  | none =>
    rw [hl] at h
    cases h
    rfl
  | some v =>
    rw [hl] at h
    cases v with
    | list vs =>
      dsimp only at h
      cases hm : vs.mapM formatPhoneValue with
      | error e =>
        rw [hm] at h
        exact (except_map_error_elim h).elim
      | ok vs' =>
        rw [hm] at h
        rw [except_map_ok_inj h]
        exact alistLookup_set_ne m f k _ (Ne.symm hk)
    | int n => exact phoneStep_map_aux h hk
    | str s => exact phoneStep_map_aux h hk
    | dec a b => exact phoneStep_map_aux h hk
    | map mm => exact phoneStep_map_aux h hk

/-- A step loop whose every iteration preserves other keys preserves any
key not in its field list. -/
theorem runSteps_lookup_other
    {step : List (String × Value) → String → Except PyErr (List (String × Value))}
    (hstep : ∀ (m' r' : List (String × Value)) (f k' : String),
      step m' f = .ok r' → k' ≠ f → alistLookup r' k' = alistLookup m' k')
    {fields : List String} {m r : List (String × Value)} {k : String}
    (h : runSteps step fields m = .ok r) (hk : k ∉ fields) :
    alistLookup r k = alistLookup m k := by
  induction fields generalizing m with
  | nil =>
    cases h
    rfl
  | cons f rest ih =>
    simp only [List.mem_cons, not_or] at hk
    unfold runSteps at h
    cases hs : step m f with
    | error e => rw [hs] at h; cases h
    | ok m1 =>
      rw [hs] at h
      rw [ih h hk.2, hstep _ _ _ _ hs hk.1]

/-- C10.  `format_message_fields` applies INN normalization exactly to the
four names in `inn_fields` (`userInn`, `ofdInn`, `operatorInn`,
`operatorTransportInn`); the binding of `operatorTransferInn` — the
registry name of tag 1016 — comes out unchanged, since it is in neither
the INN list (which has `operatorTransportInn` instead), nor the phone
list, nor the fiscal-sign or `kktRegId` rewrites. -/
theorem inn_normalization_only_named_fields (m r : List (String × Value))
    (h : format_message_fields m = .ok r) :
    alistLookup r "operatorTransferInn" = alistLookup m "operatorTransferInn"
  ∧ (∀ f ∈ innFields, ∀ s : PyStr, alistLookup m f = some (.str s) →
      alistLookup r f = some (.str (_format_inn s))) := by
  unfold format_message_fields at h
  cases h1 : fiscalSignStep m with
  | error e => rw [h1] at h; cases h
  | ok m1 =>
  rw [h1] at h
  dsimp only at h
  cases h2 : kktRegIdStep m1 with
  | error e => rw [h2] at h; cases h
  | ok m2 =>
  rw [h2] at h
  dsimp only at h
  cases h3 : runSteps innStep innFields m2 with
  | error e => rw [h3] at h; cases h
  | ok m3 =>
  rw [h3] at h
  dsimp only at h
  simp only [innFields, runSteps] at h3
  cases g1 : innStep m2 "userInn" with
  | error e => rw [g1] at h3; cases h3
  | ok a1 =>
  rw [g1] at h3
  dsimp only at h3
  cases g2 : innStep a1 "ofdInn" with
  | error e => rw [g2] at h3; cases h3
  | ok a2 =>
  rw [g2] at h3
  dsimp only at h3
  cases g3 : innStep a2 "operatorInn" with
  | error e => rw [g3] at h3; cases h3
  | ok a3 =>
  rw [g3] at h3
  dsimp only at h3
  cases g4 : innStep a3 "operatorTransportInn" with
  | error e => rw [g4] at h3; cases h3
  | ok a4 =>
  rw [g4] at h3
  dsimp only at h3
  cases h3
  have hphone : ∀ k : String, k ∉ phoneFields →
      alistLookup r k = alistLookup m3 k := fun k hk =>
    runSteps_lookup_other (fun _ _ _ _ hs hne => phoneStep_lookup_other hs hne)
      h hk
  constructor
  · rw [hphone "operatorTransferInn" (by decide),
      innStep_lookup_other g4 (by decide),
      innStep_lookup_other g3 (by decide),
      innStep_lookup_other g2 (by decide),
      innStep_lookup_other g1 (by decide),
      kktRegIdStep_lookup_other h2 (by decide),
      fiscalSignStep_lookup_other h1 (by decide)]
  · intro f hf s hs
    have hm2 : ∀ k : String, k ≠ "fiscalSign" → k ≠ "kktRegId" →
        alistLookup m2 k = alistLookup m k := fun k hk1 hk2 => by
      rw [kktRegIdStep_lookup_other h2 hk2, fiscalSignStep_lookup_other h1 hk1]
    simp only [innFields, List.mem_cons, List.not_mem_nil, or_false] at hf
    rcases hf with rfl | rfl | rfl | rfl
    · rw [hphone "userInn" (by decide),
        innStep_lookup_other g4 (by decide),
        innStep_lookup_other g3 (by decide),
        innStep_lookup_other g2 (by decide)]
      exact innStep_lookup_self g1 (by rw [hm2 "userInn" (by decide) (by decide), hs])
    · rw [hphone "ofdInn" (by decide),
        innStep_lookup_other g4 (by decide),
        innStep_lookup_other g3 (by decide)]
      refine innStep_lookup_self g2 ?_
      rw [innStep_lookup_other g1 (by decide),
        hm2 "ofdInn" (by decide) (by decide), hs]
    · rw [hphone "operatorInn" (by decide),
        innStep_lookup_other g4 (by decide)]
      refine innStep_lookup_self g3 ?_
      rw [innStep_lookup_other g2 (by decide),
        innStep_lookup_other g1 (by decide),
        hm2 "operatorInn" (by decide) (by decide), hs]
    · rw [hphone "operatorTransportInn" (by decide)]
      refine innStep_lookup_self g4 ?_
      rw [innStep_lookup_other g3 (by decide),
        innStep_lookup_other g2 (by decide),
        innStep_lookup_other g1 (by decide),
        hm2 "operatorTransportInn" (by decide) (by decide), hs]

/-- A message holding the INN `"007704358518"` under both `userInn` and
`operatorTransferInn`. -/
def innWitnessMsg : List (String × Value) :=
  [("userInn", .str [48, 48, 55, 55, 48, 52, 51, 53, 56, 53, 49, 56]),
   ("operatorTransferInn", .str [48, 48, 55, 55, 48, 52, 51, 53, 56, 53, 49, 56])]

/-- `format_message_fields innWitnessMsg`: `userInn` loses its two leading
zeros, `operatorTransferInn` is untouched. -/
def innWitnessRes : List (String × Value) :=
  [("userInn", .str [55, 55, 48, 52, 51, 53, 56, 53, 49, 56]),
   ("operatorTransferInn", .str [48, 48, 55, 55, 48, 52, 51, 53, 56, 53, 49, 56])]

/-- C10 — witness on a concrete message. -/
theorem inn_normalization_only_named_fields_witness :
    alistLookup innWitnessRes "operatorTransferInn" =
      alistLookup innWitnessMsg "operatorTransferInn"
  ∧ alistLookup innWitnessRes "userInn" =
      some (.str [55, 55, 48, 52, 51, 53, 56, 53, 49, 56]) := by
  have h := inn_normalization_only_named_fields innWitnessMsg innWitnessRes rfl
  exact ⟨h.1, h.2 "userInn" (by simp [innFields])
    [48, 48, 55, 55, 48, 52, 51, 53, 56, 53, 49, 56] rfl⟩
